import Mathlib

/-!
Verification of the Plutus banking backend (CSV-backed services).

This file gives a shallow Lean embedding of the parts of the code that the
claims C1..C10 talk about, and proves or refutes each claim.

Modelling conventions:
* Monetary values are modelled with exact integer arithmetic (`Int`).  The
  Python code computes transfer arithmetic with `Decimal` (exact) and stores
  balances as floats; the embedding idealises both as exact arithmetic.
* Generated values (timestamps, transaction/beneficiary/log ids, client ip,
  request id) are passed in through an `Env` record: each field is the value
  the corresponding generator call returns during the modelled request.
* CSV tables are modelled twice, at the two levels the code manipulates them:
  a character-exact level (`Table`, `renderCsv`, `parseCsv`) for the storage
  layer claims, and a typed level (`BankState` with lists of typed rows) for
  the service layer claims.
* Appends always succeed in the model: the local storage backend only
  reports failure by raising on an I/O error, which the pure model has no
  counterpart for.
-/

namespace Plutus

/-! ## Character-level CSV model (storage layer: base_storage.py, local_storage.py) -/

/-- A raw string of the storage layer, as a list of characters. -/
abbrev Str := List Char

/-- Model of the transformation `sanitize_csv_data` applies to one string
value: `value.replace(",", "，").replace("\n", " ").replace("\r", "")`. -/
def sanitizeStr (s : Str) : Str :=
  ((s.map fun c => if c = ',' then '，' else c).map
    fun c => if c = '\n' then ' ' else c).filter fun c => c ≠ '\r'

/-- A Python value stored in a CSV row.  Non-string non-None values are
represented by the string `str(value)` renders them to, since that is all the
storage layer ever observes of them. -/
inductive Value where
  | vStr (s : Str)
  | vNone
  | vOther (rendered : Str)
deriving DecidableEq

/-- Per-value branch of `base_storage.sanitize_csv_data`: strings have commas
and newlines replaced, `None` becomes the empty string, anything else is
stringified. -/
def sanitizeValue : Value → Str
  | .vStr s => sanitizeStr s
  | .vNone => []
  | .vOther r => r

/-- `base_storage.sanitize_csv_data`: sanitize each value of the row dict. -/
def sanitize_csv_data (row : List (Str × Value)) : List (Str × Str) :=
  row.map fun kv => (kv.1, sanitizeValue kv.2)

/-- Join pieces with a separator character (the rendering direction of the
CSV format: cells joined by commas, lines joined by newlines). -/
def joinSep (sep : Char) : List Str → Str
  | [] => []
  | [x] => x
  | x :: y :: xs => x ++ sep :: joinSep sep (y :: xs)

/-- Worker for `splitSep`: the accumulator holds the current piece reversed. -/
def splitSepAux (sep : Char) : Str → Str → List Str
  | [], acc => [acc.reverse]
  | c :: cs, acc =>
    if c = sep then acc.reverse :: splitSepAux sep cs []
    else splitSepAux sep cs (c :: acc)

/-- Split a string at every occurrence of the separator character. -/
def splitSep (sep : Char) (s : Str) : List Str :=
  splitSepAux sep s []

/-- A CSV table as pandas sees it: a header row of column names and the data
rows, each a list of cells. -/
structure Table where
  header : List Str
  rows : List (List Str)
deriving DecidableEq

/-- Render a table to the text of a CSV file (`DataFrame.to_csv` with
`index=False`): the header line followed by one line per row. -/
def renderCsv (t : Table) : Str :=
  joinSep '\n' (joinSep ',' t.header :: t.rows.map (joinSep ','))

/-- Parse the text of a CSV file back into a table (`pandas.read_csv`):
the first line is the header, every further line is a row of cells. -/
def parseCsv (s : Str) : Table :=
  match splitSep '\n' s with
  | [] => ⟨[], []⟩
  | h :: rs => ⟨splitSep ',' h, rs.map (splitSep ',')⟩

/-- The local data directory: each file name maps to the file content, if the
file exists. -/
def FileSys := String → Option Str

/-- `LocalStorage.read_csv`: a missing file yields an empty DataFrame,
otherwise the file content is parsed. -/
def read_csv (fs : FileSys) (file_name : String) : Table :=
  match fs file_name with
  | none => ⟨[], []⟩
  | some c => parseCsv c

/-- `LocalStorage.write_csv`: overwrite the whole file with the rendered
table.  (The pre-write backup copy touches only the backups directory and is
not observable through `read_csv` on the table itself, so it is omitted.) -/
def write_csv (fs : FileSys) (file_name : String) (data : Table) : FileSys :=
  fun n => if n = file_name then some (renderCsv data) else fs n

/-- `LocalStorage.append_csv`: sanitize the row dict, read the existing
table, append the one new row, write the whole table back.  When the
existing frame is empty the new frame consists of the new row alone, so its
columns are the dict keys; otherwise `pd.concat` aligns the new row cells to
the existing columns by key (a key absent from the columns contributes an
empty cell). -/
def append_csv (fs : FileSys) (file_name : String) (data : List (Str × Value)) : FileSys :=
  let sanitized := sanitize_csv_data data
  let df := read_csv fs file_name
  let updated : Table :=
    if df.rows.isEmpty then
      ⟨sanitized.map Prod.fst, [sanitized.map Prod.snd]⟩
    else
      ⟨df.header, df.rows ++ [df.header.map fun k => ((sanitized.lookup k).getD [])]⟩
  write_csv fs file_name updated

/-! ## String helpers shared by the service layer

`str_startswith` models `str.startswith` / pandas `.str.startswith`,
`str_lower` models `str.lower()` (ASCII range, which covers every identifier
and name the code compares), `str_contains_ci` models pandas
`.str.contains(x, case=False)`, and `str_strip` models `str.strip()`. -/

/-- Boolean list-level test that `p` occurs at the start of `s`. -/
def startsWithL : Str → Str → Bool
  | [], _ => true
  | _ :: _, [] => false
  | a :: as, b :: bs => a = b && startsWithL as bs

/-- `s.startswith(p)` on Python strings. -/
def str_startswith (s p : String) : Bool :=
  startsWithL p.toList s.toList

/-- Lower-case one character (ASCII letters, as used by the code). -/
def lowChar (c : Char) : Char :=
  if 'A' ≤ c ∧ c ≤ 'Z' then Char.ofNat (c.toNat + 32) else c

/-- `s.lower()` on Python strings (ASCII range). -/
def str_lower (s : String) : String :=
  String.mk (s.toList.map lowChar)

/-- Boolean list-level test that `needle` occurs contiguously in `hay`. -/
def containsL : Str → Str → Bool
  | _, [] => true
  | [], _ :: _ => false
  | a :: as, b :: bs => (startsWithL (b :: bs) (a :: as)) || containsL as (b :: bs)

/-- Python `needle in hay` on strings (substring test). -/
def str_in (needle hay : String) : Bool :=
  containsL hay.toList needle.toList

/-- Case-insensitive substring test, modelling pandas
`.str.contains(needle, case=False)`. -/
def str_contains_ci (hay needle : String) : Bool :=
  str_in (str_lower needle) (str_lower hay)

/-- A whitespace character in the sense of `str.strip()` (ASCII range). -/
def isSpaceChar (c : Char) : Bool :=
  c = ' ' || c = '\t' || c = '\n' || c = '\r'

/-- `s.strip()` on Python strings (ASCII whitespace). -/
def str_strip (s : String) : String :=
  String.mk (((s.toList.dropWhile isSpaceChar).reverse.dropWhile isSpaceChar).reverse)

/-- Plain structural insertion of an element into a list according to a
boolean order. -/
def insertBy (le : α → α → Bool) (a : α) : List α → List α
  | [] => [a]
  | b :: bs => if le a b then a :: b :: bs else b :: insertBy le a bs

/-- Insertion sort.  It models `DataFrame.sort_values`: the claims only use
that the result is a permutation of the input ordered by the key, and pandas
quicksort and this sort agree up to reordering of equal keys. -/
def sortBy (le : α → α → Bool) : List α → List α
  | [] => []
  | a :: as => insertBy le a (sortBy le as)

/-! ## Typed data model (the four CSV tables, storage_manager.initialize_csv_files) -/

/-- A row of `users.csv`:
`user_id,username,hashed_password,account_number,balance,daily_limit,created_at`. -/
structure User where
  user_id : String
  username : String
  hashed_password : String
  account_number : String
  balance : Int
  daily_limit : Int
  created_at : String
deriving DecidableEq

/-- A row of `beneficiaries.csv`:
`owner_user_id,beneficiary_id,name,bank_name,account_number,added_at`. -/
structure Beneficiary where
  owner_user_id : String
  beneficiary_id : String
  name : String
  bank_name : String
  account_number : String
  added_at : String
deriving DecidableEq

/-- A row of `transactions.csv`, as written by this code (send_money,
deposit_money, withdraw_money):
`transaction_id,from_user_id,to_user_id,from_account,to_account,amount,status,description,timestamp,daily_total_sent`. -/
structure Txn where
  transaction_id : String
  from_user_id : String
  to_user_id : String
  from_account : String
  to_account : String
  amount : Int
  status : String
  description : String
  timestamp : String
  daily_total_sent : Int
deriving DecidableEq

/-- A row of `audit_logs.csv`:
`log_id,user_id,action,details,timestamp,ip_address,request_id`.
The stringified details dict is kept as an opaque string. -/
structure AuditLog where
  log_id : String
  user_id : String
  action : String
  details : String
  timestamp : String
  ip_address : Option String
  request_id : Option String
deriving DecidableEq

/-- The persistent state the services read and write: the four CSV tables. -/
structure BankState where
  users : List User
  beneficiaries : List Beneficiary
  transactions : List Txn
  audit_logs : List AuditLog
deriving DecidableEq

/-- The business-rule settings from `core/config.py` that the transaction
path reads. -/
structure Settings where
  min_transaction_amount : Int
  max_transaction_amount : Int
  daily_transfer_limit : Int
  daily_transaction_limit : Nat
deriving DecidableEq

/-- The configured defaults: `min_transaction_amount = 1`,
`max_transaction_amount = 50000`, `daily_transfer_limit = 50000`,
`daily_transaction_limit = 10`. -/
def defaultSettings : Settings := ⟨1, 50000, 50000, 10⟩

/-- The environment of one request: the values the non-deterministic
generator calls return during it.  `ts` is `create_timestamp()`, `todayUtc`
its first ten characters (`create_timestamp()[:10]`), `todayLocal` is
`create_date()` (computed from local time, unlike the other two which use
UTC), `txid` / `benid` / `logid1` / `logid2` are the generated ids, and
`ip` / `reqid` are the request metadata. -/
structure Env where
  ts : String
  todayUtc : String
  todayLocal : String
  txid : String
  benid : String
  logid1 : String
  logid2 : String
  ip : Option String
  reqid : Option String
deriving DecidableEq

/-! ## base_service.py -/

/-- The response dict shape shared by `create_error_response` and
`create_success_response` (the optional data payload of success responses is
modelled separately where a claim needs it). -/
structure Resp where
  status : String
  message : String
  error_code : Option String
  timestamp : String
deriving DecidableEq

/-- `BaseService.create_error_response`. -/
def create_error_response (message : String) (error_code : Option String) (ts : String) : Resp :=
  ⟨"failed", message, error_code, ts⟩

/-- `BaseService.create_success_response` (status / message / timestamp part). -/
def create_success_response (message : String) (ts : String) : Resp :=
  ⟨"success", message, none, ts⟩

/-- `BaseService.get_user_by_id`: first row of the users table whose
`user_id` column matches. -/
def get_user_by_id (s : BankState) (user_id : String) : Option User :=
  s.users.find? fun u => u.user_id == user_id

/-- `LocalStorage.update_row` on the users table, with the user id as the
match condition and the balance as the update: it fails on an empty table or
when no row matches, otherwise sets the balance of every matching row. -/
def update_row_balance (users : List User) (user_id : String) (new_balance : Int) :
    Option (List User) :=
  if users.isEmpty then none
  else if users.any (fun u => u.user_id == user_id) then
    some (users.map fun u =>
      if u.user_id == user_id then { u with balance := new_balance } else u)
  else none

/-- `core.security.create_audit_log_entry` followed by the append in
`BaseService.log_audit`. -/
def create_audit_log_entry (log_id user_id action details ts : String)
    (ip reqid : Option String) : AuditLog :=
  ⟨log_id, user_id, action, details, ts, ip, reqid⟩

/-- `BaseService.log_audit`: append one audit row (appends succeed in the
model, see the module comment). -/
def log_audit (s : BankState) (entry : AuditLog) : BankState :=
  { s with audit_logs := s.audit_logs ++ [entry] }

/-- `BaseService.update_user_balance`: update the balance cell of the
matching users row; on success additionally append a `balance_<operation>`
audit row.  Returns the success flag together with the new state. -/
def update_user_balance (env : Env) (s : BankState) (log_id : String) (user_id : String)
    (new_balance : Int) (operation : String) (details : String) : Bool × BankState :=
  match update_row_balance s.users user_id new_balance with
  | none => (false, s)
  | some users' =>
    let s' : BankState := { s with users := users' }
    (true, log_audit s' (create_audit_log_entry log_id user_id ("balance_" ++ operation)
      details env.ts env.ip env.reqid))

/-! ## transaction_service.py: daily-limit bookkeeping -/

/-- The row filter shared by `get_daily_total_sent`,
`get_user_daily_transfer_info` and `check_daily_limit`: transactions sent by
the user (`from_user_id`), timestamped on the given day
(`timestamp.str.startswith(today)`), with status `success`. -/
def user_daily_txns (s : BankState) (user_id today : String) : List Txn :=
  s.transactions.filter fun t =>
    t.from_user_id == user_id && str_startswith t.timestamp today && t.status == "success"

/-- `TransactionService.get_daily_total_sent`: recompute the daily total by
summing the amounts of the matching transactions. -/
def get_daily_total_sent (s : BankState) (user_id today : String) : Int :=
  if s.transactions.isEmpty then 0
  else
    let ut := user_daily_txns s user_id today
    if ut.isEmpty then 0 else (ut.map Txn.amount).sum

/-- The (date, transferred_amount, transaction_count) triple of
`get_user_daily_transfer_info`. -/
structure DailyInfo where
  date : String
  transferred_amount : Int
  transaction_count : Nat
deriving DecidableEq

/-- `TransactionService.get_user_daily_transfer_info`: date is the UTC day,
totals recomputed from the transactions table. -/
def get_user_daily_transfer_info (s : BankState) (user_id : String) (todayUtc : String) :
    DailyInfo :=
  if s.transactions.isEmpty then ⟨todayUtc, 0, 0⟩
  else
    let ut := user_daily_txns s user_id todayUtc
    if ut.isEmpty then ⟨todayUtc, 0, 0⟩
    else ⟨todayUtc, (ut.map Txn.amount).sum, ut.length⟩

/-- Result of `check_daily_transfer_limit`. -/
structure DailyCheck where
  allowed : Bool
  message : String
  remaining_amount : Int
  remaining_transactions : Int
deriving DecidableEq

/-- `TransactionService.check_daily_transfer_limit`: recompute the daily
info, reset it when its (UTC) date differs from the local date, then compare
against the configured limits. -/
def check_daily_transfer_limit (st : Settings) (env : Env) (s : BankState)
    (user_id : String) (amount : Int) : DailyCheck :=
  let info := get_user_daily_transfer_info s user_id env.todayUtc
  let info := if info.date ≠ env.todayLocal then ⟨env.todayLocal, 0, 0⟩ else info
  let new_amount := info.transferred_amount + amount
  let new_count := info.transaction_count + 1
  if new_amount > st.daily_transfer_limit then
    ⟨false, "Daily transfer limit exceeded",
      st.daily_transfer_limit - info.transferred_amount,
      max 0 ((st.daily_transaction_limit : Int) - info.transaction_count)⟩
  else if new_count > st.daily_transaction_limit then
    ⟨false, "Daily transaction limit exceeded",
      st.daily_transfer_limit - info.transferred_amount,
      (st.daily_transaction_limit : Int) - info.transaction_count⟩
  else
    ⟨true, "Transfer allowed",
      st.daily_transfer_limit - new_amount,
      (st.daily_transaction_limit : Int) - new_count⟩

/-- `TransactionService.update_daily_transfer_limit`: purely a re-check that
the new total stays within the per-user `daily_limit` column (the running
totals themselves live only in the transactions table). -/
def update_daily_transfer_limit (s : BankState) (user_id : String) (amount : Int)
    (todayUtc : String) : Bool :=
  let info := get_user_daily_transfer_info s user_id todayUtc
  match get_user_by_id s user_id with
  | none => false
  | some user => !(info.transferred_amount + amount > user.daily_limit)

/-- `TransactionService.get_beneficiary_by_id_for_transaction`: first
beneficiaries row matching owner and beneficiary id. -/
def get_beneficiary_by_id_for_transaction (s : BankState) (user_id beneficiary_id : String) :
    Option Beneficiary :=
  s.beneficiaries.find? fun b =>
    b.owner_user_id == user_id && b.beneficiary_id == beneficiary_id

/-- Typed counterpart of `sanitizeStr` on `String` (the storage layer
sanitizes every string cell of an appended or updated row). -/
def sanitizeS (x : String) : String :=
  String.mk (sanitizeStr x.toList)

/-! ## transaction_service.send_money -/

/-- `TransactionService.send_money`.  Returns the response together with the
state after the call.  Control flow follows the source: existence checks,
amount checks, balance check, daily-limit check, balance deduction (with
audit row), daily-limit re-validation (with compensating rollback on
failure), transaction append, final audit row. -/
def send_money (st : Settings) (env : Env) (s : BankState) (user_id : String)
    (beneficiary_id : String) (amount : Int) (description : Option String) :
    Resp × BankState :=
  match get_user_by_id s user_id with
  | none => (create_error_response "User not found" (some "USER_NOT_FOUND") env.ts, s)
  | some user =>
  match get_beneficiary_by_id_for_transaction s user_id beneficiary_id with
  | none => (create_error_response "Beneficiary not found" (some "BENEFICIARY_NOT_FOUND") env.ts, s)
  | some beneficiary =>
  if amount ≤ 0 then
    (create_error_response "Amount must be greater than zero" (some "INVALID_AMOUNT") env.ts, s)
  else if amount < st.min_transaction_amount then
    (create_error_response "Minimum transfer amount" (some "AMOUNT_TOO_LOW") env.ts, s)
  else if amount > st.max_transaction_amount then
    (create_error_response "Maximum transfer amount" (some "AMOUNT_TOO_HIGH") env.ts, s)
  else if user.balance < amount then
    (create_error_response "Insufficient balance" (some "INSUFFICIENT_BALANCE") env.ts, s)
  else
  let daily_check := check_daily_transfer_limit st env s user_id amount
  if !daily_check.allowed then
    (create_error_response daily_check.message (some "DAILY_LIMIT_EXCEEDED") env.ts, s)
  else
  let current_daily_total := get_daily_total_sent s user_id env.todayUtc
  let new_daily_total := current_daily_total + amount
  let transaction_record : Txn :=
    ⟨sanitizeS env.txid, sanitizeS user_id, sanitizeS beneficiary_id,
      sanitizeS user.account_number, sanitizeS beneficiary.account_number,
      amount, "processing", sanitizeS (description.getD "Money transfer"),
      sanitizeS env.ts, new_daily_total⟩
  let current_balance := user.balance
  let new_balance := current_balance - amount
  if new_balance < 0 then
    (create_error_response "Insufficient balance for this transaction"
      (some "INSUFFICIENT_BALANCE") env.ts, s)
  else
  match update_user_balance env s env.logid1 user_id new_balance "transfer_debit"
      "transfer debit details" with
  | (false, s1) =>
    (create_error_response "Failed to deduct amount from your account"
      (some "BALANCE_UPDATE_FAILED") env.ts, s1)
  | (true, s1) =>
  if !update_daily_transfer_limit s1 user_id amount env.todayUtc then
    let rb := update_user_balance env s1 env.logid2 user_id current_balance
      "transfer_rollback" "rollback details"
    (create_error_response "Failed to update daily limits" (some "LIMIT_UPDATE_FAILED") env.ts,
      rb.2)
  else
  let s2 : BankState :=
    { s1 with transactions := s1.transactions ++ [{ transaction_record with status := "success" }] }
  match get_user_by_id s2 user_id with
  | none =>
    -- `updated_user.get` would raise on `None`; the broad handler turns that
    -- into the generic internal error (unreachable when the user exists).
    (create_error_response "Transaction failed due to internal error"
      (some "INTERNAL_ERROR") env.ts, s2)
  | some _updated_user =>
  let s3 := log_audit s2 (create_audit_log_entry env.logid2 user_id "money_transfer"
    "money transfer details" env.ts env.ip env.reqid)
  (create_success_response "Money transfer completed successfully" env.ts, s3)

/-! ## balance_service.withdraw_money -/

/-- `BalanceService.withdraw_money`: balance check (with an audit row for the
refused case), balance update, transaction append (`from_user_id` is the
withdrawing user, `to_user_id` is `SYSTEM`, status `success`,
`daily_total_sent` recorded as 0), final audit row. -/
def withdraw_money (env : Env) (s : BankState) (user_id : String) (amount : Int)
    (description : Option String) : Resp × BankState :=
  match get_user_by_id s user_id with
  | none => (create_error_response "User not found" (some "USER_NOT_FOUND") env.ts, s)
  | some user =>
  let current_balance := user.balance
  if current_balance < amount then
    let s1 := log_audit s (create_audit_log_entry env.logid1 user_id "withdrawal_failed"
      "insufficient funds details" env.ts env.ip env.reqid)
    (create_error_response "Insufficient funds" (some "INSUFFICIENT_FUNDS") env.ts, s1)
  else
  let new_balance := current_balance - amount
  match update_user_balance env s env.logid1 user_id new_balance "withdraw"
      "withdraw details" with
  | (false, s1) =>
    (create_error_response "Failed to update balance" (some "UPDATE_FAILED") env.ts, s1)
  | (true, s1) =>
  let transaction_data : Txn :=
    ⟨sanitizeS env.txid, sanitizeS user_id, sanitizeS "SYSTEM",
      sanitizeS user.account_number, sanitizeS "SYSTEM", amount, "success",
      sanitizeS (description.getD "Balance withdrawal"), sanitizeS env.ts, 0⟩
  let s2 : BankState := { s1 with transactions := s1.transactions ++ [transaction_data] }
  let s3 := log_audit s2 (create_audit_log_entry env.logid2 user_id "withdrawal"
    "withdrawal details" env.ts env.ip env.reqid)
  (create_success_response "Withdrawal completed successfully" env.ts, s3)

/-! ## beneficiary_service.py -/

/-- `BeneficiaryService.find_beneficiary_by_name`: first beneficiaries row of
the owner whose lower-cased name equals the lower-cased query. -/
def find_beneficiary_by_name (s : BankState) (user_id name : String) : Option Beneficiary :=
  s.beneficiaries.find? fun b =>
    b.owner_user_id == user_id && str_lower b.name == str_lower name

/-- `BeneficiaryService.find_beneficiary_by_account`: first beneficiaries row
of the owner with exactly this account number. -/
def find_beneficiary_by_account (s : BankState) (user_id account_number : String) :
    Option Beneficiary :=
  s.beneficiaries.find? fun b =>
    b.owner_user_id == user_id && b.account_number == account_number

/-- `BeneficiaryService.get_beneficiary_by_id`. -/
def get_beneficiary_by_id (s : BankState) (user_id beneficiary_id : String) :
    Option Beneficiary :=
  s.beneficiaries.find? fun b =>
    b.owner_user_id == user_id && b.beneficiary_id == beneficiary_id

/-- All characters of the list are equal (Python `len(set(x)) == 1` together
with nonemptiness). -/
def allSameChars : Str → Bool
  | [] => false
  | c :: cs => cs.all fun d => d = c

/-- `SecurityUtils.validate_account_number`: returns the validity flag and
the formatted number (the input with dashes and spaces removed).  The checks
are: the cleaned number is all digits (Python `isdigit`, false on the empty
string), its length is between 10 and 20, and it is not a single repeated
digit. -/
def validate_account_number (account_number : String) : Bool × String :=
  let clean := account_number.toList.filter fun c => c ≠ '-' && c ≠ ' '
  let valid := (!clean.isEmpty && clean.all Char.isDigit)
    && (10 ≤ clean.length && clean.length ≤ 20)
    && !allSameChars clean
  (valid, String.mk clean)

/-- `SecurityUtils.validate_beneficiary_account`: account number format check
plus the bank-name check (non-empty and at least three characters after
stripping).  The bank-list lookup against the valid Pakistani banks does
not affect validity: an unlisted bank only attaches a warning to the
result and the request proceeds, so it does not appear here. -/
def validate_beneficiary_account (account_number bank_name : String) : Bool :=
  let account_ok := (validate_account_number account_number).1
  let bank_len_ok := !(bank_name == "") && !((str_strip bank_name).length < 3)
  account_ok && bank_len_ok

/-- `BeneficiaryService.add_beneficiary`: user check, account/bank
validation, case-insensitive duplicate-name check, exact duplicate-account
check, then append of the new (storage-sanitized) row and an audit row. -/
def add_beneficiary (env : Env) (s : BankState) (user_id : String)
    (name bank_name account_number : String) : Resp × BankState :=
  match get_user_by_id s user_id with
  | none => (create_error_response "User not found" (some "USER_NOT_FOUND") env.ts, s)
  | some _user =>
  if !validate_beneficiary_account account_number bank_name then
    (create_error_response "Invalid beneficiary details" (some "INVALID_BENEFICIARY") env.ts, s)
  else
  match find_beneficiary_by_name s user_id name with
  | some _ =>
    (create_error_response "Beneficiary already exists" (some "BENEFICIARY_EXISTS") env.ts, s)
  | none =>
  match find_beneficiary_by_account s user_id account_number with
  | some _ =>
    (create_error_response "Account number already exists for a beneficiary"
      (some "ACCOUNT_EXISTS") env.ts, s)
  | none =>
  let beneficiary_record : Beneficiary :=
    ⟨sanitizeS user_id, sanitizeS env.benid, sanitizeS name, sanitizeS bank_name,
      sanitizeS account_number, sanitizeS env.ts⟩
  let s1 : BankState := { s with beneficiaries := s.beneficiaries ++ [beneficiary_record] }
  let s2 := log_audit s1 (create_audit_log_entry env.logid1 user_id "beneficiary_added"
    "beneficiary added details" env.ts env.ip env.reqid)
  (create_success_response "Beneficiary added successfully" env.ts, s2)

/-- The optional fields of a `BeneficiaryUpdateRequest`. -/
structure BenUpdates where
  name : Option String
  bank_name : Option String
  account_number : Option String
deriving DecidableEq

/-- `LocalStorage.update_row` on the beneficiaries table: match on
`(owner_user_id, beneficiary_id)`, apply the storage-sanitized updates dict
to every matching row. -/
def update_row_bens (bens : List Beneficiary) (owner beneficiary_id : String)
    (upd : BenUpdates) : Option (List Beneficiary) :=
  if bens.isEmpty then none
  else if bens.any (fun b => b.owner_user_id == owner && b.beneficiary_id == beneficiary_id) then
    some (bens.map fun b =>
      if b.owner_user_id == owner && b.beneficiary_id == beneficiary_id then
        { b with
          name := ((upd.name.map sanitizeS).getD b.name),
          bank_name := ((upd.bank_name.map sanitizeS).getD b.bank_name),
          account_number := ((upd.account_number.map sanitizeS).getD b.account_number) }
      else b)
  else none

/-- `BeneficiaryService.update_beneficiary`: existence check; for a new name,
a case-insensitive conflict check against every other beneficiary of the
owner; for a new account number, a format validation and an exact conflict
check; the stored account number is the formatted (dash- and space-free)
form.  On success the matching row is updated and an audit row appended. -/
def update_beneficiary (env : Env) (s : BankState) (user_id beneficiary_id : String)
    (upd : BenUpdates) : Resp × BankState :=
  match get_beneficiary_by_id s user_id beneficiary_id with
  | none => (create_error_response "Beneficiary not found" (some "BENEFICIARY_NOT_FOUND") env.ts, s)
  | some _beneficiary =>
  let name_conflict : Bool :=
    match upd.name with
    | none => false
    | some n =>
      match find_beneficiary_by_name s user_id n with
      | some existing => existing.beneficiary_id != beneficiary_id
      | none => false
  if name_conflict then
    (create_error_response "Beneficiary name already exists" (some "NAME_EXISTS") env.ts, s)
  else
  let account_invalid : Bool :=
    match upd.account_number with
    | none => false
    | some a => !(validate_account_number a).1
  if account_invalid then
    (create_error_response "Invalid account number" (some "INVALID_ACCOUNT") env.ts, s)
  else
  let account_conflict : Bool :=
    match upd.account_number with
    | none => false
    | some a =>
      match find_beneficiary_by_account s user_id a with
      | some existing => existing.beneficiary_id != beneficiary_id
      | none => false
  if account_conflict then
    (create_error_response "Account number already exists for a beneficiary"
      (some "ACCOUNT_EXISTS") env.ts, s)
  else
  if upd.name = none ∧ upd.bank_name = none ∧ upd.account_number = none then
    (create_error_response "No valid updates provided" (some "NO_UPDATES") env.ts, s)
  else
  let updates : BenUpdates :=
    ⟨upd.name, upd.bank_name, upd.account_number.map fun a => (validate_account_number a).2⟩
  match update_row_bens s.beneficiaries user_id beneficiary_id updates with
  | none =>
    (create_error_response "Failed to update beneficiary" (some "UPDATE_FAILED") env.ts, s)
  | some bens' =>
  let s1 : BankState := { s with beneficiaries := bens' }
  let s2 := log_audit s1 (create_audit_log_entry env.logid1 user_id "beneficiary_updated"
    "beneficiary updated details" env.ts env.ip env.reqid)
  (create_success_response "Beneficiary updated successfully" env.ts, s2)

/-! ## beneficiary_service.list_beneficiaries -/

/-- A `BeneficiaryListRequest` (after schema validation, so
`1 ≤ page` and `1 ≤ page_size ≤ 100`). -/
structure BenListReq where
  search_name : Option String
  bank_filter : Option String
  page : Nat
  page_size : Nat
deriving DecidableEq

/-- One formatted beneficiary of the list response. -/
structure BenOut where
  beneficiary_id : String
  name : String
  bank_name : String
  account_number : String
  added_at : String
deriving DecidableEq

/-- The pagination block of a paginated response. -/
structure Pagination where
  current_page : Nat
  page_size : Nat
  total_items : Nat
  total_pages : Nat
  has_next : Bool
  has_previous : Bool
deriving DecidableEq

/-- A `list_beneficiaries` response (the function has no failure path other
than the broad exception handler, which pure code never reaches). -/
structure BenListResp where
  status : String
  message : String
  timestamp : String
  data : List BenOut
  pagination : Pagination
deriving DecidableEq

/-- The filter pipeline of `list_beneficiaries`: owner filter, then the
case-insensitive name search, then the case-insensitive bank filter. -/
def ben_filtered (s : BankState) (user_id : String) (req : BenListReq) : List Beneficiary :=
  let ub := s.beneficiaries.filter fun b => b.owner_user_id == user_id
  let ub := match req.search_name with
    | none => ub
    | some q => ub.filter fun b => str_contains_ci b.name q
  match req.bank_filter with
  | none => ub
  | some q => ub.filter fun b => str_contains_ci b.bank_name q

/-- The sort step of `list_beneficiaries`: by `added_at`, newest first. -/
def ben_sorted (l : List Beneficiary) : List Beneficiary :=
  sortBy (fun a b => decide (b.added_at ≤ a.added_at)) l

/-- Project a beneficiaries row to the response shape. -/
def ben_format (b : Beneficiary) : BenOut :=
  ⟨b.beneficiary_id, b.name, b.bank_name, b.account_number, b.added_at⟩

/-- `BeneficiaryService.list_beneficiaries`: empty-table early return, else
filter, sort, paginate with `iloc[(page-1)*size : (page-1)*size + size]`,
format, and report `ceil(total/size)` total pages. -/
def list_beneficiaries (env : Env) (s : BankState) (user_id : String) (req : BenListReq) :
    BenListResp :=
  if s.beneficiaries.isEmpty then
    ⟨"success", "Beneficiaries retrieved successfully", env.ts, [],
      ⟨1, req.page_size, 0, 0, false, false⟩⟩
  else
    let sorted := ben_sorted (ben_filtered s user_id req)
    let total_items := sorted.length
    let start_idx := (req.page - 1) * req.page_size
    let paginated := (sorted.drop start_idx).take req.page_size
    let total_pages := (total_items + req.page_size - 1) / req.page_size
    ⟨"success", "Beneficiaries retrieved successfully", env.ts, paginated.map ben_format,
      ⟨req.page, req.page_size, total_items, total_pages,
        decide (req.page < total_pages), decide (1 < req.page)⟩⟩

/-! ## transaction_service.get_transaction_history

`get_transaction_history` is modelled over a raw DataFrame (`Frame`), since
its behaviour is decided by the column names: its filter reads the
`sender_user_id` column, which the schema written by this code
(`transactions_csv_header`) does not contain, so pandas raises `KeyError`.
Additionally its date filters read `history_request.start_date` and
`history_request.end_date`, attributes the request model
`TransactionHistoryRequest = TransactionListRequest` does not define (its
date field is `date_filter`), so even a frame that has the legacy columns
raises `AttributeError` there.  Both exceptions are caught by the broad
handler, which returns the INTERNAL_ERROR failure response. -/

/-- One cell of a pandas DataFrame as read from CSV: a string or a number. -/
inductive Cell where
  | cstr (s : String)
  | cnum (n : Int)
deriving DecidableEq

/-- A pandas DataFrame: column names plus rows of cells (row cells are
positional, aligned with the header). -/
structure Frame where
  header : List String
  rows : List (List Cell)
deriving DecidableEq

/-- The transactions.csv column names from
`StorageManager.initialize_csv_files`, which are also exactly the keys of the
record dicts `send_money`, `deposit_money` and `withdraw_money` append. -/
def transactions_csv_header : List String :=
  ["transaction_id", "from_user_id", "to_user_id", "from_account", "to_account",
   "amount", "status", "description", "timestamp", "daily_total_sent"]

/-- A `TransactionHistoryRequest` (alias of `TransactionListRequest`): note
there are no `start_date` / `end_date` fields; the date range lives in the
unused `date_filter` sub-object (not modelled, the code never reads it). -/
structure HistReq where
  status_filter : Option String
  beneficiary_name : Option String
  transaction_type : Option String
  page : Nat
  page_size : Nat
deriving DecidableEq

/-- A formatted transaction of the history response (the shape built at
lines 313-323 of the service; unreachable, see `get_transaction_history`). -/
structure HRow where
  transaction_id : String
  beneficiary_name : String
  beneficiary_bank : String
  amount : Int
  description : String
  status : String
  created_at : String
  completed_at : String
  failure_reason : Option String
deriving DecidableEq

/-- The summary block of the history response. -/
structure HistSummary where
  total_sent : Int
  total_transactions : Nat
deriving DecidableEq

/-- A `get_transaction_history` response. -/
structure HistResp where
  status : String
  message : String
  error_code : Option String
  timestamp : String
  data : Option (List HRow)
  pagination : Option Pagination
  summary : Option HistSummary
deriving DecidableEq

/-- `TransactionService.get_transaction_history`.  The empty frame takes the
early success return.  On a non-empty frame the filter
`transactions_df[transactions_df[sender_user_id] == user_id]` raises
`KeyError` whenever the frame has no `sender_user_id` column; when that
column does exist, the later read of `history_request.start_date` raises
`AttributeError` (the request model defines no such attribute).  Either
exception reaches the broad handler, producing the INTERNAL_ERROR failure
response, so the sort / summary / pagination / formatting code below those
lines is unreachable on every non-empty frame. -/
def get_transaction_history (df : Frame) (user_id : String) (req : HistReq) (ts : String) :
    HistResp :=
  if df.rows.isEmpty then
    ⟨"success", "Transaction history retrieved successfully", none, ts,
      some [], some ⟨1, req.page_size, 0, 0, false, false⟩, some ⟨0, 0⟩⟩
  else if !(df.header.contains "sender_user_id") then
    ⟨"failed", "Failed to retrieve transaction history", some "INTERNAL_ERROR", ts,
      none, none, none⟩
  else
    ⟨"failed", "Failed to retrieve transaction history", some "INTERNAL_ERROR", ts,
      none, none, none⟩

/-! ## transaction_router.py: the POST /transactions/send handler

The handler inspects the dict a service call returned.  Service responses
are therefore also modelled in their literal dict form (`PyDict`), exactly
as `create_error_response` / `create_success_response` build them, so that
the key lookups of the router are faithful: reading a missing key raises
`KeyError`, which the generic `except Exception` arm of the handler converts
to HTTP 500. -/

/-- A Python value stored in a response dict. -/
inductive PyVal where
  | pstr (s : String)
  | pbool (b : Bool)
  | pint (n : Int)
  | pnone
deriving DecidableEq

/-- A Python dict with string keys, as an association list. -/
abbrev PyDict := List (String × PyVal)

/-- Dict key lookup (`d[k]` returns the value, or raises `KeyError` when the
key is absent, modelled by `none`). -/
def dict_get (d : PyDict) (k : String) : Option PyVal :=
  d.lookup k

/-- `BaseService.create_error_response`, in its literal dict form: the keys
are exactly `status`, `message`, `error_code` and `timestamp`. -/
def create_error_response_dict (message error_code ts : String) : PyDict :=
  [("status", .pstr "failed"), ("message", .pstr message),
   ("error_code", .pstr error_code), ("timestamp", .pstr ts)]

/-- `BaseService.create_success_response`, in its literal dict form: the
keys are `status`, `message`, `timestamp` and, when a truthy data payload is
given, `data`. -/
def create_success_response_dict (message ts : String) (data : Option PyVal) : PyDict :=
  [("status", .pstr "success"), ("message", .pstr message), ("timestamp", .pstr ts)]
    ++ (match data with | none => [] | some d => [("data", d)])

/-- Python truthiness of a dict value. -/
def py_truthy : PyVal → Bool
  | .pstr s => !(s == "")
  | .pbool b => b
  | .pint n => !(n == 0)
  | .pnone => false

/-- The HTTP status code the POST /transactions/send handler responds with,
given the dict the service returned.  Follows lines 80-99 of
`transaction_router.py`: it branches on `result["success"]`; when that is
falsy it maps `result["error_code"]` to 402 / 404 / 429 / 404 and otherwise
400, and on a truthy value it returns the declared 201.  A `KeyError` from
either lookup falls to the `except Exception` arm, which responds 500. -/
def send_money_http_status (result : PyDict) : Nat :=
  match dict_get result "success" with
  | none => 500
  | some v =>
    if !py_truthy v then
      match dict_get result "error_code" with
      | none => 500
      | some ec =>
        if ec = .pstr "INSUFFICIENT_BALANCE" then 402
        else if ec = .pstr "BENEFICIARY_NOT_FOUND" then 404
        else if ec = .pstr "DAILY_LIMIT_EXCEEDED" then 429
        else if ec = .pstr "USER_NOT_FOUND" then 404
        else 400
    else 201

/-! ## Concrete sample data used by witnesses and counterexamples -/

/-- A sample request environment. -/
def envW : Env :=
  ⟨"2025-09-01T10:00:00Z", "2025-09-01", "2025-09-01", "TXN1", "BEN9", "LOG1", "LOG2",
    none, none⟩

/-- A sample sender with balance 100. -/
def userU1 : User := ⟨"U1", "hamza", "hp1", "1111111111", 100, 10000, "2025-08-01"⟩

/-- A second user whose account number coincides with the account number of
the beneficiary `benB1` saved by `userU1`. -/
def userU2 : User := ⟨"U2", "zunaira", "hp2", "2222222222", 50, 10000, "2025-08-01"⟩

/-- A beneficiary of `userU1` whose target account is the account of
`userU2`. -/
def benB1 : Beneficiary := ⟨"U1", "B1", "Zed", "HBL", "2222222222", "2025-08-02T00:00:00Z"⟩

/-- The sample state: two users, one saved beneficiary, empty transaction
and audit tables. -/
def stateW : BankState := ⟨[userU1, userU2], [benB1], [], []⟩

/-- Two beneficiaries of the same owner with names that differ only in
case. -/
def benBob1 : Beneficiary := ⟨"U1", "B1", "bob", "HBL", "1234567890", "2025-08-02T00:00:00Z"⟩

/-- See `benBob1`. -/
def benBob2 : Beneficiary := ⟨"U1", "B2", "BOB", "UBL", "3333333333", "2025-08-03T00:00:00Z"⟩

/-- Sample state for the beneficiary-uniqueness counterexample. -/
def stateBob : BankState := ⟨[userU1], [benBob1, benBob2], [], []⟩

/-- A transactions frame in the schema this code writes, with one row. -/
def writersFrame : Frame :=
  ⟨transactions_csv_header,
    [[.cstr "T1", .cstr "U1", .cstr "B1", .cstr "1111111111", .cstr "2222222222",
      .cnum 10, .cstr "success", .cstr "d", .cstr "2025-09-01T10:00:00Z", .cnum 10]]⟩

/-- A transactions frame in the legacy schema `get_transaction_history`
selects from (it does contain `sender_user_id`), with one row belonging to
user U1. -/
def legacyFrame : Frame :=
  ⟨["transaction_id", "sender_user_id", "beneficiary_name", "beneficiary_bank",
    "amount", "description", "status", "created_at", "completed_at"],
    [[.cstr "T1", .cstr "U1", .cstr "Zed", .cstr "HBL", .cnum 10, .cstr "d",
      .cstr "completed", .cstr "2025-09-01", .cstr "2025-09-01"]]⟩

/-- Unique `(owner_user_id, name)` pairs, comparing names exactly. -/
@[reducible] def NamesUniqueExact (l : List Beneficiary) : Prop :=
  l.Pairwise fun a b => ¬(a.owner_user_id = b.owner_user_id ∧ a.name = b.name)

/-- Unique `(owner_user_id, name)` pairs, comparing names case
insensitively (the comparison the duplicate checks use). -/
@[reducible] def NamesUniqueCI (l : List Beneficiary) : Prop :=
  l.Pairwise fun a b =>
    ¬(a.owner_user_id = b.owner_user_id ∧ str_lower a.name = str_lower b.name)

/-- Unique `(owner_user_id, account_number)` pairs. -/
@[reducible] def AccountsUnique (l : List Beneficiary) : Prop :=
  l.Pairwise fun a b =>
    ¬(a.owner_user_id = b.owner_user_id ∧ a.account_number = b.account_number)

/-- Unique `(owner_user_id, beneficiary_id)` pairs (ids are generated, so
real tables satisfy this). -/
@[reducible] def IdsUnique (l : List Beneficiary) : Prop :=
  l.Pairwise fun a b =>
    ¬(a.owner_user_id = b.owner_user_id ∧ a.beneficiary_id = b.beneficiary_id)

/-! ## Storage-layer lemmas -/

theorem mem_joinSep (sep : Char) :
    ∀ (cs : List Str) (c : Char), c ∈ joinSep sep cs → c = sep ∨ ∃ x ∈ cs, c ∈ x
  | [], c, h => absurd h (by simp [joinSep])
  | [x], c, h => .inr ⟨x, by simp, by simpa [joinSep] using h⟩
  | x :: y :: xs, c, h => by
    simp only [joinSep, List.mem_append, List.mem_cons] at h
    rcases h with h | h | h
    · exact .inr ⟨x, by simp, h⟩
    · exact .inl h
    · rcases mem_joinSep sep (y :: xs) c h with h' | ⟨z, hz, hc⟩
      · exact .inl h'
      · exact .inr ⟨z, List.mem_cons_of_mem _ hz, hc⟩

theorem splitSepAux_no_sep (sep : Char) :
    ∀ (x acc : Str), sep ∉ x → splitSepAux sep x acc = [acc.reverse ++ x]
  | [], acc, _ => by simp [splitSepAux]
  | c :: cs, acc, h => by
    have hc : ¬(c = sep) := fun e => h (e ▸ List.mem_cons_self c cs)
    have hcs : sep ∉ cs := fun m => h (List.mem_cons_of_mem _ m)
    simp only [splitSepAux, if_neg hc]
    rw [splitSepAux_no_sep sep cs (c :: acc) hcs]
    simp

theorem splitSepAux_append (sep : Char) :
    ∀ (x rest acc : Str), sep ∉ x →
      splitSepAux sep (x ++ sep :: rest) acc = (acc.reverse ++ x) :: splitSepAux sep rest []
  | [], rest, acc, _ => by simp [splitSepAux]
  | c :: cs, rest, acc, h => by
    have hc : ¬(c = sep) := fun e => h (e ▸ List.mem_cons_self c cs)
    have hcs : sep ∉ cs := fun m => h (List.mem_cons_of_mem _ m)
    simp only [List.cons_append, splitSepAux, if_neg hc, List.append_eq]
    rw [splitSepAux_append sep cs rest (c :: acc) hcs]
    simp

theorem splitSep_joinSep (sep : Char) :
    ∀ (cs : List Str), cs ≠ [] → (∀ x ∈ cs, sep ∉ x) →
      splitSep sep (joinSep sep cs) = cs
  | [], h, _ => absurd rfl h
  | [x], _, hx => by
    simp only [joinSep, splitSep]
    rw [splitSepAux_no_sep sep x [] (hx x (by simp))]
    simp
  | x :: y :: xs, _, hx => by
    simp only [joinSep, splitSep]
    rw [splitSepAux_append sep x (joinSep sep (y :: xs)) [] (hx x (by simp))]
    have := splitSep_joinSep sep (y :: xs) (by simp) (fun z hz => hx z (List.mem_cons_of_mem _ hz))
    simp only [splitSep] at this
    simp [this]

theorem splitSepAux_ne_nil (sep : Char) :
    ∀ (s acc : Str), splitSepAux sep s acc ≠ []
  | [], acc => by simp [splitSepAux]
  | c :: cs, acc => by
    simp only [splitSepAux]
    split
    · simp
    · exact splitSepAux_ne_nil sep cs (c :: acc)

theorem splitSepAux_no_mem (sep : Char) :
    ∀ (s acc : Str), sep ∉ acc → ∀ p ∈ splitSepAux sep s acc, sep ∉ p
  | [], acc, hacc, p, hp => by
    simp only [splitSepAux, List.mem_singleton] at hp
    subst hp
    simpa using hacc
  | c :: cs, acc, hacc, p, hp => by
    simp only [splitSepAux] at hp
    split at hp
    · rcases List.mem_cons.mp hp with h | h
      · subst h; simpa using hacc
      · exact splitSepAux_no_mem sep cs [] (by simp) p h
    · rename_i hc
      exact splitSepAux_no_mem sep cs (c :: acc)
        (by
          intro m
          rcases List.mem_cons.mp m with h | h
          · exact hc h.symm
          · exact hacc h) p hp

theorem splitSepAux_chars (sep : Char) :
    ∀ (s acc : Str), ∀ p ∈ splitSepAux sep s acc, ∀ c ∈ p, c ∈ s ∨ c ∈ acc
  | [], acc, p, hp, c, hc => by
    simp only [splitSepAux, List.mem_singleton] at hp
    subst hp
    exact .inr (List.mem_reverse.mp hc)
  | c0 :: cs, acc, p, hp, c, hc => by
    simp only [splitSepAux] at hp
    split at hp
    · rcases List.mem_cons.mp hp with h | h
      · subst h
        exact .inr (List.mem_reverse.mp hc)
      · rcases splitSepAux_chars sep cs [] p h c hc with h' | h'
        · exact .inl (List.mem_cons_of_mem _ h')
        · simp at h'
    · rcases splitSepAux_chars sep cs (c0 :: acc) p hp c hc with h' | h'
      · exact .inl (List.mem_cons_of_mem _ h')
      · rcases List.mem_cons.mp h' with h'' | h''
        · exact .inl (h'' ▸ List.mem_cons_self c0 cs)
        · exact .inr h''

/-- Round trip at the table level: parsing a rendered table gives the table
back, provided the header is a nonempty list of cells, every row is a
nonempty list of cells, and no cell contains a comma or a newline. -/
theorem parse_render (t : Table)
    (hh : t.header ≠ [])
    (hhc : ∀ cell ∈ t.header, ',' ∉ cell ∧ '\n' ∉ cell)
    (hr : ∀ r ∈ t.rows, r ≠ [])
    (hrc : ∀ r ∈ t.rows, ∀ cell ∈ r, ',' ∉ cell ∧ '\n' ∉ cell) :
    parseCsv (renderCsv t) = t := by
  have hline : ∀ l ∈ (joinSep ',' t.header :: t.rows.map (joinSep ',')), '\n' ∉ l := by
    intro l hl hnl
    rcases List.mem_cons.mp hl with h | h
    · subst h
      rcases mem_joinSep ',' t.header '\n' hnl with h' | ⟨x, hx, hc⟩
      · exact absurd h' (by decide)
      · exact (hhc x hx).2 hc
    · rcases List.mem_map.mp h with ⟨r, hrm, rfl⟩
      rcases mem_joinSep ',' r '\n' hnl with h' | ⟨x, hx, hc⟩
      · exact absurd h' (by decide)
      · exact (hrc r hrm x hx).2 hc
  have hsplit : splitSep '\n' (renderCsv t)
      = joinSep ',' t.header :: t.rows.map (joinSep ',') := by
    exact splitSep_joinSep '\n' _ (by simp) hline
  have hhdr : splitSep ',' (joinSep ',' t.header) = t.header :=
    splitSep_joinSep ',' t.header hh (fun x hx => (hhc x hx).1)
  have hrows : (t.rows.map (joinSep ',')).map (splitSep ',') = t.rows := by
    rw [List.map_map]
    have h1 : ∀ r ∈ t.rows, (splitSep ',' ∘ joinSep ',') r = r := fun r hrm =>
      splitSep_joinSep ',' r (hr r hrm) (fun x hx => (hrc r hrm x hx).1)
    rw [List.map_congr_left h1]
    simp
  simp only [renderCsv] at hsplit
  simp only [parseCsv, renderCsv, hsplit, hhdr, hrows]

/-- C7: performing `write_csv` and then `read_csv` on the same table name
returns exactly the rows (and columns) that were written, for every table
whose header and rows are nonempty cell lists free of commas and newlines
(the CSV separators; every row the services write is of this shape after
sanitization). -/
theorem C7_write_then_read_is_identity (fs : FileSys) (file_name : String) (t : Table)
    (hh : t.header ≠ [])
    (hhc : ∀ cell ∈ t.header, ',' ∉ cell ∧ '\n' ∉ cell)
    (hr : ∀ r ∈ t.rows, r ≠ [])
    (hrc : ∀ r ∈ t.rows, ∀ cell ∈ r, ',' ∉ cell ∧ '\n' ∉ cell) :
    read_csv (write_csv fs file_name t) file_name = t := by
  simp only [read_csv, write_csv, if_pos rfl]
  exact parse_render t hh hhc hr hrc

/-- Witness for C7 at a concrete file system and table. -/
theorem C7_write_then_read_is_identity_witness :
    read_csv (write_csv (fun _ => none) "transactions.csv"
        ⟨["id".toList, "amount".toList], [["T1".toList, "100".toList]]⟩) "transactions.csv"
      = ⟨["id".toList, "amount".toList], [["T1".toList, "100".toList]]⟩ :=
  C7_write_then_read_is_identity (fun _ => none) "transactions.csv"
    ⟨["id".toList, "amount".toList], [["T1".toList, "100".toList]]⟩
    (by decide) (by decide) (by decide) (by decide)

/-! ### Lemmas towards C6 -/

theorem sanitizeStr_no_comma (s : Str) : ',' ∉ sanitizeStr s := by
  intro h
  obtain ⟨h2, -⟩ := List.mem_filter.mp h
  obtain ⟨b, hb, hgb⟩ := List.mem_map.mp h2
  obtain ⟨a, _, hfa⟩ := List.mem_map.mp hb
  by_cases hbn : b = '\n'
  · rw [if_pos hbn] at hgb
    exact absurd hgb (by decide)
  · rw [if_neg hbn] at hgb
    by_cases han : a = ','
    · rw [if_pos han] at hfa
      rw [← hfa] at hgb
      exact absurd hgb (by decide)
    · rw [if_neg han] at hfa
      exact han (hfa.trans hgb)

theorem sanitizeStr_no_newline (s : Str) : '\n' ∉ sanitizeStr s := by
  intro h
  obtain ⟨h2, -⟩ := List.mem_filter.mp h
  obtain ⟨b, _, hgb⟩ := List.mem_map.mp h2
  by_cases hbn : b = '\n'
  · rw [if_pos hbn] at hgb
    exact absurd hgb (by decide)
  · rw [if_neg hbn] at hgb
    exact hbn hgb

theorem lookup_getD_values (kvs : List (Str × Str)) (hnd : (kvs.map Prod.fst).Nodup) :
    (kvs.map Prod.fst).map (fun k => ((kvs.lookup k).getD [])) = kvs.map Prod.snd := by
  induction kvs with
  | nil => rfl
  | cons kv rest ih =>
    obtain ⟨k, v⟩ := kv
    simp only [List.map_cons] at hnd ⊢
    have hknotin : k ∉ rest.map Prod.fst := (List.nodup_cons.mp hnd).1
    congr 1
    · simp [List.lookup]
    · have h1 : ∀ k' ∈ rest.map Prod.fst,
          ((((k, v) :: rest).lookup k').getD []) = ((rest.lookup k').getD []) := by
        intro k' hk'
        have : ¬(k' == k) = true := by
          intro he
          exact hknotin ((beq_iff_eq.mp he) ▸ hk')
        simp [List.lookup, this]
      rw [List.map_congr_left h1]
      exact ih (List.nodup_cons.mp hnd).2

/-- Any parsed table is well formed: nonempty header and rows, and no cell
contains a separator. -/
theorem parseCsv_wf (s : Str) :
    (parseCsv s).header ≠ []
    ∧ (∀ cell ∈ (parseCsv s).header, ',' ∉ cell ∧ '\n' ∉ cell)
    ∧ (∀ r ∈ (parseCsv s).rows, r ≠ [])
    ∧ (∀ r ∈ (parseCsv s).rows, ∀ cell ∈ r, ',' ∉ cell ∧ '\n' ∉ cell) := by
  have hlines := splitSepAux_ne_nil '\n' s []
  rcases hsp : splitSep '\n' s with _ | ⟨h0, ls⟩
  · exact absurd hsp hlines
  have hlineprops : ∀ l ∈ h0 :: ls, '\n' ∉ l := by
    intro l hl
    have hl' : l ∈ splitSep '\n' s := by rw [hsp]; exact hl
    exact splitSepAux_no_mem '\n' s [] (by simp) l hl'
  have hcellwf : ∀ l : Str, '\n' ∉ l →
      splitSep ',' l ≠ [] ∧ ∀ cell ∈ splitSep ',' l, ',' ∉ cell ∧ '\n' ∉ cell := by
    intro l hnl
    refine ⟨splitSepAux_ne_nil ',' l [], ?_⟩
    intro cell hcell
    refine ⟨splitSepAux_no_mem ',' l [] (by simp) cell hcell, ?_⟩
    intro hnp
    rcases splitSepAux_chars ',' l [] cell hcell '\n' hnp with h' | h'
    · exact hnl h'
    · simp at h'
  simp only [parseCsv, hsp]
  refine ⟨(hcellwf h0 (hlineprops h0 (by simp))).1, ?_, ?_, ?_⟩
  · exact fun cell hc => (hcellwf h0 (hlineprops h0 (by simp))).2 cell hc
  · intro r hr
    rcases List.mem_map.mp hr with ⟨l, hl, rfl⟩
    exact (hcellwf l (hlineprops l (List.mem_cons_of_mem _ hl))).1
  · intro r hr
    rcases List.mem_map.mp hr with ⟨l, hl, rfl⟩
    exact fun cell hc => (hcellwf l (hlineprops l (List.mem_cons_of_mem _ hl))).2 cell hc

/-- C6: `append_csv` produces exactly the prior rows in their original
order followed by the one sanitized new row; no existing row is modified or
removed, and on a nonempty table the header is kept.  Hypotheses: the row
dict is nonempty with distinct, separator-free keys; each sanitized value is
separator-free (automatic for strings, an assumption for the `str()` image
of other values); and the dict keys match the existing columns whenever the
table already has rows (which is how every service appends). -/
theorem C6_append_appends_exactly_one_row (fs : FileSys) (file_name : String)
    (row : List (Str × Value))
    (hne : row ≠ [])
    (hnd : (row.map Prod.fst).Nodup)
    (hkc : ∀ k ∈ row.map Prod.fst, ',' ∉ k ∧ '\n' ∉ k)
    (hvc : ∀ kv ∈ row, ',' ∉ sanitizeValue kv.2 ∧ '\n' ∉ sanitizeValue kv.2)
    (halign : (read_csv fs file_name).rows = []
      ∨ row.map Prod.fst = (read_csv fs file_name).header) :
    (read_csv (append_csv fs file_name row) file_name).rows
        = (read_csv fs file_name).rows ++ [(sanitize_csv_data row).map Prod.snd]
    ∧ ((read_csv fs file_name).rows ≠ [] →
        (read_csv (append_csv fs file_name row) file_name).header
          = (read_csv fs file_name).header) := by
  have hkeys : (sanitize_csv_data row).map Prod.fst = row.map Prod.fst := by
    simp [sanitize_csv_data]
  have hvals : (sanitize_csv_data row).map Prod.snd
      = row.map (fun kv => sanitizeValue kv.2) := by
    simp [sanitize_csv_data]
  by_cases hcase : (read_csv fs file_name).rows = []
  · -- empty frame: the new frame is the single sanitized row
    have hupd : append_csv fs file_name row
        = write_csv fs file_name
            ⟨(sanitize_csv_data row).map Prod.fst, [(sanitize_csv_data row).map Prod.snd]⟩ := by
      simp [append_csv, hcase]
    rw [hupd, C7_write_then_read_is_identity]
    · exact ⟨by simp [hcase], fun h => absurd hcase h⟩
    · show (sanitize_csv_data row).map Prod.fst ≠ []
      rw [hkeys]
      intro h0
      exact hne (List.map_eq_nil_iff.mp h0)
    · intro cell hc
      exact hkc cell (hkeys ▸ hc)
    · intro r hrr
      simp only [List.mem_singleton] at hrr
      subst hrr
      rw [hvals]
      intro h0
      exact hne (List.map_eq_nil_iff.mp h0)
    · intro r hrr cell hc
      simp only [List.mem_singleton] at hrr
      subst hrr
      rw [hvals] at hc
      rcases List.mem_map.mp hc with ⟨kv, hkv, rfl⟩
      exact hvc kv hkv
  · -- nonempty frame: the row cells are aligned to the columns by key
    have halign' : row.map Prod.fst = (read_csv fs file_name).header := by
      rcases halign with h | h
      · exact absurd h hcase
      · exact h
    obtain ⟨hwh, hwhc, hwr, hwrc⟩ := parseCsv_wf ((fs file_name).getD [])
    have hfile : ∃ c, fs file_name = some c := by
      rcases hf : fs file_name with _ | c
      · exact absurd (by simp [read_csv, hf]) hcase
      · exact ⟨c, rfl⟩
    obtain ⟨content, hcontent⟩ := hfile
    have hdf : read_csv fs file_name = parseCsv content := by
      simp [read_csv, hcontent]
    have hnewcells : (read_csv fs file_name).header.map
        (fun k => (((sanitize_csv_data row).lookup k).getD []))
        = (sanitize_csv_data row).map Prod.snd := by
      rw [← halign', ← hkeys]
      exact lookup_getD_values (sanitize_csv_data row) (by rw [hkeys]; exact hnd)
    have hupd : append_csv fs file_name row
        = write_csv fs file_name
            ⟨(read_csv fs file_name).header,
              (read_csv fs file_name).rows ++ [(sanitize_csv_data row).map Prod.snd]⟩ := by
      simp only [append_csv]
      rw [if_neg (by simpa using hcase), hnewcells]
    rw [hupd, C7_write_then_read_is_identity]
    · exact ⟨rfl, fun _ => rfl⟩
    · rw [hdf]
      exact (parseCsv_wf content).1
    · rw [hdf]
      exact (parseCsv_wf content).2.1
    · intro r hrr
      rcases List.mem_append.mp hrr with h | h
      · rw [hdf] at h
        exact (parseCsv_wf content).2.2.1 r h
      · simp only [List.mem_singleton] at h
        subst h
        rw [hvals]
        intro habs
        exact hne (List.map_eq_nil_iff.mp habs)
    · intro r hrr cell hc
      rcases List.mem_append.mp hrr with h | h
      · rw [hdf] at h
        exact (parseCsv_wf content).2.2.2 r h cell hc
      · simp only [List.mem_singleton] at h
        subst h
        rw [hvals] at hc
        rcases List.mem_map.mp hc with ⟨kv, hkv, rfl⟩
        exact hvc kv hkv

/-- Witness for C6: append one transaction-shaped row to a one-row table. -/
theorem C6_append_appends_exactly_one_row_witness :
    (read_csv (append_csv
        (write_csv (fun _ => none) "t.csv"
          ⟨["id".toList, "note".toList], [["T1".toList, "first".toList]]⟩)
        "t.csv"
        [(("id".toList : Str), Value.vStr "T2".toList),
         (("note".toList : Str), Value.vStr "a,b\nc".toList)]) "t.csv").rows
      = [["T1".toList, "first".toList], ["T2".toList, "a，b c".toList]] := by
  have h := C6_append_appends_exactly_one_row
    (write_csv (fun _ => none) "t.csv"
      ⟨["id".toList, "note".toList], [["T1".toList, "first".toList]]⟩)
    "t.csv"
    [(("id".toList : Str), Value.vStr "T2".toList),
     (("note".toList : Str), Value.vStr "a,b\nc".toList)]
    (by decide) (by decide) (by decide) (by decide) (by right; decide)
  rw [h.1]
  decide

/-! ## C2: insufficient balance rejects the transfer with no state change -/

/-- C2: when the sender exists, the beneficiary exists, the amount passes
the positivity and min/max checks, and the stored balance of the sender is
strictly below the amount, `send_money` fails with INSUFFICIENT_BALANCE and
every one of the four tables is unchanged. -/
theorem C2_insufficient_balance_rejected (st : Settings) (env : Env) (s : BankState)
    (user_id beneficiary_id : String) (amount : Int) (description : Option String)
    (u : User) (b : Beneficiary)
    (hu : get_user_by_id s user_id = some u)
    (hb : get_beneficiary_by_id_for_transaction s user_id beneficiary_id = some b)
    (hpos : 0 < amount)
    (hmin : st.min_transaction_amount ≤ amount)
    (hmax : amount ≤ st.max_transaction_amount)
    (hbal : u.balance < amount) :
    (send_money st env s user_id beneficiary_id amount description).1.status = "failed"
    ∧ (send_money st env s user_id beneficiary_id amount description).1.error_code
        = some "INSUFFICIENT_BALANCE"
    ∧ (send_money st env s user_id beneficiary_id amount description).2.users = s.users
    ∧ (send_money st env s user_id beneficiary_id amount description).2.beneficiaries
        = s.beneficiaries
    ∧ (send_money st env s user_id beneficiary_id amount description).2.transactions
        = s.transactions
    ∧ (send_money st env s user_id beneficiary_id amount description).2.audit_logs
        = s.audit_logs := by
  have heq : send_money st env s user_id beneficiary_id amount description
      = (create_error_response "Insufficient balance" (some "INSUFFICIENT_BALANCE") env.ts, s) := by
    simp only [send_money, hu, hb]
    rw [if_neg (not_le.mpr hpos), if_neg (not_lt.mpr hmin), if_neg (not_lt.mpr hmax),
      if_pos hbal]
  rw [heq]
  exact ⟨rfl, rfl, rfl, rfl, rfl, rfl⟩

/-- Witness for C2: transferring 200 from a balance of 100 in the sample
state. -/
theorem C2_insufficient_balance_rejected_witness :
    (send_money defaultSettings envW stateW "U1" "B1" 200 none).1.status = "failed"
    ∧ (send_money defaultSettings envW stateW "U1" "B1" 200 none).1.error_code
        = some "INSUFFICIENT_BALANCE"
    ∧ (send_money defaultSettings envW stateW "U1" "B1" 200 none).2.users = stateW.users
    ∧ (send_money defaultSettings envW stateW "U1" "B1" 200 none).2.beneficiaries
        = stateW.beneficiaries
    ∧ (send_money defaultSettings envW stateW "U1" "B1" 200 none).2.transactions
        = stateW.transactions
    ∧ (send_money defaultSettings envW stateW "U1" "B1" 200 none).2.audit_logs
        = stateW.audit_logs :=
  C2_insufficient_balance_rejected defaultSettings envW stateW "U1" "B1" 200 none
    userU1 benB1 (by decide) (by decide) (by decide) (by decide) (by decide) (by decide)

/-! ## C1: what a successful transfer does to stored balances -/

/-- C1 counterexample.  In the sample state, `userU2` owns the account the
beneficiary record of the transfer points at, so it is the receiver of the
transfer in the sense of the claim.  A successful `send_money` of amount 10
leaves the stored balance of `userU2` at 50 instead of 60: no stored balance
is ever credited (the transfer only debits the sender and records a
transaction row), so the sum of the two account balances drops from 150 to
140 rather than being invariant. -/
theorem C1_counterexample :
    (send_money defaultSettings envW stateW "U1" "B1" 10 none).1.status = "success"
    ∧ benB1.account_number = userU2.account_number
    ∧ get_user_by_id stateW "U1" = some userU1
    ∧ get_user_by_id stateW "U2" = some userU2
    ∧ get_user_by_id (send_money defaultSettings envW stateW "U1" "B1" 10 none).2 "U2"
        = some userU2
    ∧ ¬ userU2.balance = userU2.balance + 10
    ∧ get_user_by_id (send_money defaultSettings envW stateW "U1" "B1" 10 none).2 "U1"
        = some { userU1 with balance := 90 }
    ∧ ¬ (90 : Int) + userU2.balance = userU1.balance + userU2.balance := by
  decide

/-- C1 as amended: a successful `send_money` of amount `a` replaces the
balance of every users row matching the sender id by the old sender balance
minus `a`, and leaves every other users row untouched; in particular no
receiver is credited and the sum of the sender balance and any other stored
balance decreases by exactly `a`. -/
theorem C1_success_debits_sender_only (st : Settings) (env : Env) (s : BankState)
    (user_id beneficiary_id : String) (amount : Int) (description : Option String)
    (u : User)
    (hu : get_user_by_id s user_id = some u)
    (hres : (send_money st env s user_id beneficiary_id amount description).1.status
      = "success") :
    (send_money st env s user_id beneficiary_id amount description).2.users
      = s.users.map fun v =>
          if v.user_id == user_id then { v with balance := u.balance - amount } else v := by
  simp only [send_money, hu] at hres ⊢
  rcases hbm : get_beneficiary_by_id_for_transaction s user_id beneficiary_id with _ | b
  · rw [hbm] at hres
    simp [create_error_response] at hres
  rw [hbm] at hres
  dsimp only [] at hres ⊢
  by_cases h1 : amount ≤ 0
  · rw [if_pos h1] at hres
    exact absurd hres (by simp [create_error_response])
  rw [if_neg h1] at hres ⊢
  by_cases h2 : amount < st.min_transaction_amount
  · rw [if_pos h2] at hres
    exact absurd hres (by simp [create_error_response])
  rw [if_neg h2] at hres ⊢
  by_cases h3 : amount > st.max_transaction_amount
  · rw [if_pos h3] at hres
    exact absurd hres (by simp [create_error_response])
  rw [if_neg h3] at hres ⊢
  by_cases h4 : u.balance < amount
  · rw [if_pos h4] at hres
    exact absurd hres (by simp [create_error_response])
  rw [if_neg h4] at hres ⊢
  by_cases h5 : (!(check_daily_transfer_limit st env s user_id amount).allowed) = true
  · rw [if_pos h5] at hres
    exact absurd hres (by simp [create_error_response])
  rw [if_neg h5] at hres ⊢
  by_cases h6 : u.balance - amount < 0
  · rw [if_pos h6] at hres
    exact absurd hres (by simp [create_error_response])
  rw [if_neg h6] at hres ⊢
  rcases hup : update_user_balance env s env.logid1 user_id (u.balance - amount)
      "transfer_debit" "transfer debit details" with ⟨flag, s1⟩
  rcases flag
  · rw [hup] at hres
    dsimp only [] at hres
    exact absurd hres (by simp [create_error_response])
  rw [hup] at hres
  dsimp only [] at hres ⊢
  by_cases h7 : (!update_daily_transfer_limit s1 user_id amount env.todayUtc) = true
  · rw [if_pos h7] at hres
    exact absurd hres (by simp [create_error_response])
  rw [if_neg h7] at hres ⊢
  -- success path: recover the shape of s1 from the balance update
  simp only [update_user_balance] at hup
  rcases hrow : update_row_balance s.users user_id (u.balance - amount) with _ | users'
  · rw [hrow] at hup
    simp at hup
  rw [hrow] at hup
  dsimp only [] at hup
  simp only [log_audit, Prod.mk.injEq, true_and] at hup
  simp only [update_row_balance] at hrow
  by_cases hemp : s.users.isEmpty
  · rw [if_pos hemp] at hrow
    simp at hrow
  rw [if_neg hemp] at hrow
  by_cases hany : s.users.any fun v => v.user_id == user_id
  · rw [if_pos hany] at hrow
    simp only [Option.some.injEq] at hrow
    split at hres
    · exact absurd hres (by simp [create_error_response])
    · rename_i u2 heq
      dsimp only []
      simp only [log_audit]
      rw [← hup]
      dsimp only []
      rw [← hrow]
  · rw [if_neg hany] at hrow
    simp at hrow

/-- Witness for the amended C1 at the sample state. -/
theorem C1_success_debits_sender_only_witness :
    (send_money defaultSettings envW stateW "U1" "B1" 10 none).2.users
      = stateW.users.map fun v =>
          if v.user_id == "U1" then { v with balance := userU1.balance - 10 } else v :=
  C1_success_debits_sender_only defaultSettings envW stateW "U1" "B1" 10 none userU1
    (by decide) (by decide)

/-! ## C5: the daily limit is recomputed from the transactions table -/

/-- The recomputed daily total is the sum of the amounts of the filtered
transactions (the empty-table and empty-filter early returns coincide with
the empty sum). -/
theorem daily_total_sum (s : BankState) (user_id today : String) :
    get_daily_total_sent s user_id today
      = ((user_daily_txns s user_id today).map Txn.amount).sum := by
  simp only [get_daily_total_sent]
  by_cases hemp : s.transactions.isEmpty
  · rw [if_pos hemp]
    have : s.transactions = [] := List.isEmpty_iff.mp hemp
    simp [user_daily_txns, this]
  · rw [if_neg hemp]
    by_cases hue : (user_daily_txns s user_id today).isEmpty
    · rw [if_pos hue]
      rw [List.isEmpty_iff.mp hue]
      simp
    · rw [if_neg hue]

/-- The daily transfer info is exactly the recomputed total and count of the
filtered transactions. -/
theorem daily_info_eq (s : BankState) (user_id today : String) :
    get_user_daily_transfer_info s user_id today
      = ⟨today, get_daily_total_sent s user_id today,
          (user_daily_txns s user_id today).length⟩ := by
  simp only [get_user_daily_transfer_info, get_daily_total_sent]
  by_cases hemp : s.transactions.isEmpty
  · rw [if_pos hemp, if_pos hemp]
    have : s.transactions = [] := List.isEmpty_iff.mp hemp
    simp [user_daily_txns, this]
  · rw [if_neg hemp, if_neg hemp]
    by_cases hue : (user_daily_txns s user_id today).isEmpty
    · rw [if_pos hue, if_pos hue]
      have : user_daily_txns s user_id today = [] := List.isEmpty_iff.mp hue
      simp [this]
    · rw [if_neg hue, if_neg hue]

/-- When the UTC date and the local date agree (so the new-day reset of
`check_daily_transfer_limit` does not fire), the transfer is disallowed
exactly when the recomputed total plus the new amount exceeds the configured
transfer limit, or the recomputed count plus one exceeds the configured
transaction limit. -/
theorem check_allowed_iff (st : Settings) (env : Env) (s : BankState)
    (user_id : String) (amount : Int) (hday : env.todayUtc = env.todayLocal) :
    (check_daily_transfer_limit st env s user_id amount).allowed = false
      ↔ (get_daily_total_sent s user_id env.todayUtc + amount > st.daily_transfer_limit
         ∨ (user_daily_txns s user_id env.todayUtc).length + 1
             > st.daily_transaction_limit) := by
  have hcond : ¬(env.todayUtc ≠ env.todayLocal) := by simp [hday]
  simp only [check_daily_transfer_limit, daily_info_eq, if_neg hcond]
  by_cases hA : get_daily_total_sent s user_id env.todayUtc + amount > st.daily_transfer_limit
  · simp [hA]
  · by_cases hB : (user_daily_txns s user_id env.todayUtc).length + 1
        > st.daily_transaction_limit
    · simp [hA, hB]
    · simp [hA, hB]

/-- C5: the daily transfer total used by the limit check is always the sum
of the amount column over the rows of the transactions table with matching
`from_user_id`, a timestamp beginning with the current (UTC) date and status
`success`; and, once the user / beneficiary / amount / balance checks have
passed and the UTC and local dates agree, `send_money` is refused with
DAILY_LIMIT_EXCEEDED exactly when that sum plus the requested amount exceeds
the configured daily transfer limit, or the transaction count (including the
new transfer) exceeds the configured daily transaction limit. -/
theorem C5_daily_limit_recomputed (st : Settings) (env : Env) (s : BankState)
    (user_id beneficiary_id : String) (amount : Int) (description : Option String)
    (u : User) (b : Beneficiary)
    (hu : get_user_by_id s user_id = some u)
    (hb : get_beneficiary_by_id_for_transaction s user_id beneficiary_id = some b)
    (hpos : 0 < amount)
    (hmin : st.min_transaction_amount ≤ amount)
    (hmax : amount ≤ st.max_transaction_amount)
    (hbal : ¬ u.balance < amount)
    (hday : env.todayUtc = env.todayLocal) :
    get_daily_total_sent s user_id env.todayUtc
      = ((s.transactions.filter fun t => t.from_user_id == user_id
          && str_startswith t.timestamp env.todayUtc && t.status == "success").map
            Txn.amount).sum
    ∧ ((send_money st env s user_id beneficiary_id amount description).1.error_code
          = some "DAILY_LIMIT_EXCEEDED"
        ↔ (get_daily_total_sent s user_id env.todayUtc + amount > st.daily_transfer_limit
           ∨ (user_daily_txns s user_id env.todayUtc).length + 1
               > st.daily_transaction_limit)) := by
  constructor
  · exact daily_total_sum s user_id env.todayUtc
  · have hiff := check_allowed_iff st env s user_id amount hday
    simp only [send_money, hu, hb]
    rw [if_neg (not_le.mpr hpos), if_neg (not_lt.mpr hmin), if_neg (not_lt.mpr hmax),
      if_neg hbal]
    by_cases hc : (!(check_daily_transfer_limit st env s user_id amount).allowed) = true
    · rw [if_pos hc]
      simp only [create_error_response]
      exact iff_of_true trivial (hiff.mp (by simpa using hc))
    · rw [if_neg hc]
      have hR : ¬(get_daily_total_sent s user_id env.todayUtc + amount
            > st.daily_transfer_limit
          ∨ (user_daily_txns s user_id env.todayUtc).length + 1
              > st.daily_transaction_limit) := by
        intro h
        exact hc (by simp [hiff.mpr h])
      refine iff_of_false ?_ hR
      by_cases h6 : u.balance - amount < 0
      · rw [if_pos h6]
        simp [create_error_response]
      · rw [if_neg h6]
        rcases hup : update_user_balance env s env.logid1 user_id (u.balance - amount)
            "transfer_debit" "transfer debit details" with ⟨flag, s1⟩
        rcases flag
        · dsimp only []
          simp [create_error_response]
        · dsimp only []
          by_cases h7 : (!update_daily_transfer_limit s1 user_id amount env.todayUtc) = true
          · rw [if_pos h7]
            simp [create_error_response]
          · rw [if_neg h7]
            split
            · simp [create_error_response]
            · simp [create_success_response]

/-- Witness for C5 at the sample state: with an empty transactions table the
recomputed total is 0, and a transfer of 10 is not refused for the daily
limit. -/
theorem C5_daily_limit_recomputed_witness :
    get_daily_total_sent stateW "U1" envW.todayUtc
      = ((stateW.transactions.filter fun t => t.from_user_id == "U1"
          && str_startswith t.timestamp envW.todayUtc && t.status == "success").map
            Txn.amount).sum
    ∧ ((send_money defaultSettings envW stateW "U1" "B1" 10 none).1.error_code
          = some "DAILY_LIMIT_EXCEEDED"
        ↔ (get_daily_total_sent stateW "U1" envW.todayUtc + 10
              > defaultSettings.daily_transfer_limit
           ∨ (user_daily_txns stateW "U1" envW.todayUtc).length + 1
               > defaultSettings.daily_transaction_limit)) :=
  C5_daily_limit_recomputed defaultSettings envW stateW "U1" "B1" 10 none userU1 benB1
    (by decide) (by decide) (by decide) (by decide) (by decide) (by decide) (by decide)

/-! ## C10: a withdrawal counts toward the daily transfer total -/

/-- When the user lookup succeeds, the balance update on the users table
succeeds and is the pointwise map. -/
theorem update_row_balance_of_found (s : BankState) (user_id : String) (u : User)
    (nb : Int) (hu : get_user_by_id s user_id = some u) :
    update_row_balance s.users user_id nb
      = some (s.users.map fun v =>
          if v.user_id == user_id then { v with balance := nb } else v) := by
  simp only [get_user_by_id] at hu
  have hmem : u ∈ s.users := List.mem_of_find?_eq_some hu
  have hpred := List.find?_some hu
  simp only [update_row_balance]
  rw [if_neg (by simp [List.isEmpty_iff]; intro h; rw [h] at hmem; simp at hmem)]
  rw [if_pos (List.any_eq_true.mpr ⟨u, hmem, hpred⟩)]

/-- C10: a successful withdrawal of amount `a` appends a transaction row
with `from_user_id` equal to the withdrawing user, status `success` and a
`daily_total_sent` field of 0; because `get_daily_total_sent` recomputes the
total from exactly such rows, the daily total of that user for the day of
the withdrawal grows by `a`, shrinking what `send_money` will allow that
day.  (The hypotheses ask that the user id is free of CSV-special
characters, so storage sanitization keeps it intact, and that the recorded
timestamp starts with the queried day.) -/
theorem C10_withdrawal_increases_daily_total (env : Env) (s : BankState)
    (user_id : String) (amount : Int) (description : Option String) (u : User)
    (today : String)
    (hu : get_user_by_id s user_id = some u)
    (hbal : ¬ u.balance < amount)
    (hclean : sanitizeS user_id = user_id)
    (hts : str_startswith (sanitizeS env.ts) today = true) :
    (withdraw_money env s user_id amount description).1.status = "success"
    ∧ (∃ rec : Txn,
        (withdraw_money env s user_id amount description).2.transactions
            = s.transactions ++ [rec]
        ∧ rec.from_user_id = user_id
        ∧ rec.status = "success"
        ∧ rec.amount = amount
        ∧ rec.daily_total_sent = 0)
    ∧ get_daily_total_sent (withdraw_money env s user_id amount description).2 user_id today
        = get_daily_total_sent s user_id today + amount := by
  have hrow := update_row_balance_of_found s user_id u (u.balance - amount) hu
  have heq : withdraw_money env s user_id amount description
      = (create_success_response "Withdrawal completed successfully" env.ts,
          { users := s.users.map fun v =>
              if v.user_id == user_id then { v with balance := u.balance - amount } else v,
            beneficiaries := s.beneficiaries,
            transactions := s.transactions ++
              [⟨sanitizeS env.txid, sanitizeS user_id, sanitizeS "SYSTEM",
                sanitizeS u.account_number, sanitizeS "SYSTEM", amount, "success",
                sanitizeS (description.getD "Balance withdrawal"), sanitizeS env.ts, 0⟩],
            audit_logs := (s.audit_logs ++
              [create_audit_log_entry env.logid1 user_id ("balance_" ++ "withdraw")
                "withdraw details" env.ts env.ip env.reqid]) ++
              [create_audit_log_entry env.logid2 user_id "withdrawal"
                "withdrawal details" env.ts env.ip env.reqid] }) := by
    simp only [withdraw_money, hu]
    rw [if_neg hbal]
    simp only [update_user_balance, hrow]
    simp only [log_audit]
  rw [heq]
  refine ⟨rfl, ⟨_, rfl, hclean, rfl, rfl, rfl⟩, ?_⟩
  rw [daily_total_sum, daily_total_sum]
  simp only [user_daily_txns, List.filter_append]
  rw [List.map_append, List.sum_append]
  congr 1
  simp [hclean, hts]

/-- Witness for C10: a withdrawal of 30 in the sample state. -/
theorem C10_withdrawal_increases_daily_total_witness :
    (withdraw_money envW stateW "U1" 30 none).1.status = "success"
    ∧ (∃ rec : Txn,
        (withdraw_money envW stateW "U1" 30 none).2.transactions
            = stateW.transactions ++ [rec]
        ∧ rec.from_user_id = "U1"
        ∧ rec.status = "success"
        ∧ rec.amount = 30
        ∧ rec.daily_total_sent = 0)
    ∧ get_daily_total_sent (withdraw_money envW stateW "U1" 30 none).2 "U1" "2025-09-01"
        = get_daily_total_sent stateW "U1" "2025-09-01" + 30 :=
  C10_withdrawal_increases_daily_total envW stateW "U1" 30 none userU1 "2025-09-01"
    (by decide) (by decide) (by decide) (by decide)

/-! ## C3: service failure dicts and the router mapping -/

/-- C3 (evidence for the code bug): every `create_error_response` dict has
status `failed` and carries the error code under the `error_code` key, but
it has no `success` key — so the POST /transactions/send handler, which
branches on `result["success"]`, raises `KeyError` for every service result
and answers 500 through its broad exception arm.  In particular an
INSUFFICIENT_BALANCE failure is answered with 500, not with the 402 of the
(dead) mapping branch. -/
theorem C3_router_keyerror_replies_500 :
    (∀ message error_code ts : String,
      dict_get (create_error_response_dict message error_code ts) "status"
          = some (.pstr "failed")
      ∧ dict_get (create_error_response_dict message error_code ts) "error_code"
          = some (.pstr error_code)
      ∧ dict_get (create_error_response_dict message error_code ts) "success" = none
      ∧ send_money_http_status (create_error_response_dict message error_code ts) = 500)
    ∧ (∀ message ts : String, ∀ data : Option PyVal,
        dict_get (create_success_response_dict message ts data) "success" = none
        ∧ send_money_http_status (create_success_response_dict message ts data) = 500)
    ∧ send_money_http_status
        (create_error_response_dict "Insufficient balance" "INSUFFICIENT_BALANCE"
          "2025-09-01T10:00:00Z") = 500
    ∧ (500 : Nat) ≠ 402 := by
  refine ⟨fun m c t => ⟨rfl, rfl, rfl, rfl⟩, fun m t d => ⟨?_, ?_⟩, rfl, by decide⟩
  · cases d <;> rfl
  · cases d <;> rfl

/-! ## C9: get_transaction_history on the schema this code writes -/

/-- C9: on any non-empty transactions frame with the columns this code
writes (which do not include `sender_user_id`), `get_transaction_history`
returns the INTERNAL_ERROR failure response for every user and request. -/
theorem C9_history_always_internal_error (df : Frame) (user_id : String)
    (req : HistReq) (ts : String)
    (hhdr : df.header = transactions_csv_header)
    (hne : df.rows ≠ []) :
    get_transaction_history df user_id req ts
      = ⟨"failed", "Failed to retrieve transaction history", some "INTERNAL_ERROR", ts,
          none, none, none⟩ := by
  simp only [get_transaction_history]
  rw [if_neg (by simpa [List.isEmpty_iff] using hne)]
  rw [if_pos (by rw [hhdr]; decide)]

/-- Witness for C9: the one-row frame written by this code. -/
theorem C9_history_always_internal_error_witness :
    get_transaction_history writersFrame "U1" ⟨none, none, none, 1, 20⟩ envW.ts
      = ⟨"failed", "Failed to retrieve transaction history", some "INTERNAL_ERROR", envW.ts,
          none, none, none⟩ :=
  C9_history_always_internal_error writersFrame "U1" ⟨none, none, none, 1, 20⟩ envW.ts
    (by decide) (by decide)

/-! ## C8: pagination -/

theorem insertBy_perm (le : α → α → Bool) (a : α) :
    ∀ l : List α, (insertBy le a l).Perm (a :: l)
  | [] => by simp [insertBy]
  | b :: bs => by
    simp only [insertBy]
    split
    · exact List.Perm.refl _
    · exact ((insertBy_perm le a bs).cons b).trans (List.Perm.swap a b bs)

theorem sortBy_perm (le : α → α → Bool) : ∀ l : List α, (sortBy le l).Perm l
  | [] => List.Perm.refl _
  | a :: as => (insertBy_perm le a (sortBy le as)).trans ((sortBy_perm le as).cons a)

/-- Splitting a list into consecutive chunks of size `sz` by
`drop ((page-1)*sz) / take sz` and concatenating the chunks for pages 1
through `ceil (length / sz)` reproduces the list. -/
theorem paginate_chunks (sz : Nat) (hsz : 1 ≤ sz) (l : List α) :
    (List.range ((l.length + sz - 1) / sz)).flatMap
      (fun i => (l.drop (i * sz)).take sz) = l := by
  by_cases hl : l = []
  · subst hl
    simp [Nat.div_eq_of_lt (show 0 + sz - 1 < sz by omega)]
  · have hpos : 0 < l.length := List.length_pos.mpr hl
    have hT : (l.length + sz - 1) / sz = ((l.drop sz).length + sz - 1) / sz + 1 := by
      rw [List.length_drop]
      rcases le_or_lt l.length sz with hle | hlt
      · have h1 : l.length - sz = 0 := by omega
        rw [h1]
        rw [Nat.div_eq_of_lt (show 0 + sz - 1 < sz by omega)]
        have h3 : l.length + sz - 1 = (l.length - 1) + 1 * sz := by omega
        rw [h3, Nat.add_mul_div_right _ _ (show 0 < sz by omega)]
        rw [Nat.div_eq_of_lt (show l.length - 1 < sz by omega)]
      · have h3 : l.length + sz - 1 = (l.length - sz + sz - 1) + sz := by omega
        rw [h3, Nat.add_div_right _ (show 0 < sz by omega)]
    rw [hT, List.range_succ_eq_map, List.flatMap_cons]
    simp only [Nat.zero_mul, List.drop_zero]
    rw [List.flatMap_map]
    have hstep : ∀ a : Nat, List.take sz (List.drop (a.succ * sz) l)
        = ((l.drop sz).drop (a * sz)).take sz := by
      intro a
      rw [List.drop_drop, Nat.succ_mul, Nat.add_comm]
    simp only [hstep]
    rw [paginate_chunks sz hsz (l.drop sz)]
    exact List.take_append_drop sz l
termination_by l.length
decreasing_by
  simp only [List.length_drop]
  omega

/-- C8 counterexample.  `get_transaction_history` cannot paginate at all:
even on a frame that has the legacy columns the function selects (including
`sender_user_id`), with one row belonging to the queried user, the call
fails with INTERNAL_ERROR and returns no data list (the code reads
`history_request.start_date`, an attribute its request model does not
define), so no concatenation of returned pages can cover the matching row
even once. -/
theorem C8_counterexample :
    legacyFrame.rows ≠ []
    ∧ legacyFrame.header.contains "sender_user_id" = true
    ∧ (get_transaction_history legacyFrame "U1" ⟨none, none, none, 1, 20⟩ envW.ts).status
        = "failed"
    ∧ (get_transaction_history legacyFrame "U1" ⟨none, none, none, 1, 20⟩ envW.ts).error_code
        = some "INTERNAL_ERROR"
    ∧ (get_transaction_history legacyFrame "U1" ⟨none, none, none, 1, 20⟩ envW.ts).data
        = none := by
  decide

/-- C8 as amended: for `list_beneficiaries`, concatenating the data lists of
pages 1 through `ceil(total/size)` yields exactly the formatted sorted
filter-matching rows, and that sorted list is a permutation of the
filter-matching rows — every matching row appears exactly once across the
pages.  For `get_transaction_history` the corresponding property holds only
vacuously: on every non-empty transactions frame the call fails with
INTERNAL_ERROR and produces no data lists at all (and on the empty frame it
returns a single empty page). -/
theorem C8_pagination_exhaustive (env : Env) (s : BankState) (user_id : String)
    (sn bf : Option String) (sz : Nat) (hsz1 : 1 ≤ sz) (hsz2 : sz ≤ 100)
    (df : Frame) (huid : String) (req : HistReq) (ts : String) (hdf : df.rows ≠ []) :
    ((List.range
        (((ben_sorted (ben_filtered s user_id ⟨sn, bf, 1, sz⟩)).length + sz - 1) / sz)).flatMap
        (fun i => (list_beneficiaries env s user_id ⟨sn, bf, i + 1, sz⟩).data)
      = (ben_sorted (ben_filtered s user_id ⟨sn, bf, 1, sz⟩)).map ben_format)
    ∧ (ben_sorted (ben_filtered s user_id ⟨sn, bf, 1, sz⟩)).Perm
        (ben_filtered s user_id ⟨sn, bf, 1, sz⟩)
    ∧ (get_transaction_history df huid req ts).status = "failed"
    ∧ (get_transaction_history df huid req ts).error_code = some "INTERNAL_ERROR"
    ∧ (get_transaction_history df huid req ts).data = none := by
  have hhist : (get_transaction_history df huid req ts).status = "failed"
      ∧ (get_transaction_history df huid req ts).error_code = some "INTERNAL_ERROR"
      ∧ (get_transaction_history df huid req ts).data = none := by
    simp only [get_transaction_history]
    rw [if_neg (by simpa [List.isEmpty_iff] using hdf)]
    split
    · exact ⟨rfl, rfl, rfl⟩
    · exact ⟨rfl, rfl, rfl⟩
  refine ⟨?_, sortBy_perm _ _, hhist.1, hhist.2.1, hhist.2.2⟩
  by_cases hbe : s.beneficiaries.isEmpty = true
  · have hnil : s.beneficiaries = [] := List.isEmpty_iff.mp hbe
    have hfe : ben_filtered s user_id ⟨sn, bf, 1, sz⟩ = [] := by
      cases sn <;> cases bf <;> simp [ben_filtered, hnil]
    have hz : (sz - 1) / sz = 0 := Nat.div_eq_of_lt (by omega)
    rw [hfe]
    simp [ben_sorted, sortBy, hz]
  · have hli : ∀ i : Nat,
        (list_beneficiaries env s user_id ⟨sn, bf, i + 1, sz⟩).data
          = (((ben_sorted (ben_filtered s user_id ⟨sn, bf, 1, sz⟩)).drop (i * sz)).take
              sz).map ben_format := by
      intro i
      simp only [list_beneficiaries, if_neg hbe]
      have hpage : ben_filtered s user_id ⟨sn, bf, i + 1, sz⟩
          = ben_filtered s user_id ⟨sn, bf, 1, sz⟩ := rfl
      rw [hpage]
      simp [Nat.add_sub_cancel]
    rw [show (fun i => (list_beneficiaries env s user_id ⟨sn, bf, i + 1, sz⟩).data)
        = fun i => (((ben_sorted (ben_filtered s user_id ⟨sn, bf, 1, sz⟩)).drop
            (i * sz)).take sz).map ben_format from funext hli]
    rw [← List.map_flatMap]
    rw [paginate_chunks sz hsz1 (ben_sorted (ben_filtered s user_id ⟨sn, bf, 1, sz⟩))]

/-- Witness for the amended C8 at the sample state (one beneficiary, page
size 1) and the legacy one-row frame. -/
theorem C8_pagination_exhaustive_witness :
    ((List.range
        (((ben_sorted (ben_filtered stateW "U1" ⟨none, none, 1, 1⟩)).length + 1 - 1) / 1)).flatMap
        (fun i => (list_beneficiaries envW stateW "U1" ⟨none, none, i + 1, 1⟩).data)
      = (ben_sorted (ben_filtered stateW "U1" ⟨none, none, 1, 1⟩)).map ben_format)
    ∧ (ben_sorted (ben_filtered stateW "U1" ⟨none, none, 1, 1⟩)).Perm
        (ben_filtered stateW "U1" ⟨none, none, 1, 1⟩)
    ∧ (get_transaction_history legacyFrame "U1" ⟨none, none, none, 1, 20⟩ envW.ts).status
        = "failed"
    ∧ (get_transaction_history legacyFrame "U1" ⟨none, none, none, 1, 20⟩ envW.ts).error_code
        = some "INTERNAL_ERROR"
    ∧ (get_transaction_history legacyFrame "U1" ⟨none, none, none, 1, 20⟩ envW.ts).data
        = none :=
  C8_pagination_exhaustive envW stateW "U1" none none 1 (by decide) (by decide)
    legacyFrame "U1" ⟨none, none, none, 1, 20⟩ envW.ts (by decide)

/-! ## C4: beneficiary uniqueness -/

theorem sanitizeStr_id (s : Str) (h : ∀ c ∈ s, c ≠ ',' ∧ c ≠ '\n' ∧ c ≠ '\r') :
    sanitizeStr s = s := by
  simp only [sanitizeStr]
  have h1 : s.map (fun c => if c = ',' then '，' else c) = s := by
    rw [List.map_congr_left (g := id) (fun c hc => by
      simp only [id]
      rw [if_neg (h c hc).1])]
    exact List.map_id s
  have h2 : s.map (fun c => if c = '\n' then ' ' else c) = s := by
    rw [List.map_congr_left (g := id) (fun c hc => by
      simp only [id]
      rw [if_neg (h c hc).2.1])]
    exact List.map_id s
  rw [h1, h2]
  exact List.filter_eq_self.mpr fun c hc => by
    simpa using (h c hc).2.2

theorem sanitizeS_id (x : String) (h : ∀ c ∈ x.toList, c ≠ ',' ∧ c ≠ '\n' ∧ c ≠ '\r') :
    sanitizeS x = x := by
  simp only [sanitizeS, sanitizeStr_id x.toList h]
  rfl

/-- A digit is none of the characters the sanitizer rewrites. -/
theorem digit_not_special (c : Char) (hd : c.isDigit = true) :
    c ≠ ',' ∧ c ≠ '\n' ∧ c ≠ '\r' := by
  refine ⟨?_, ?_, ?_⟩ <;> intro he <;> rw [he] at hd <;> exact absurd hd (by decide)

/-- A raw account number that passes validation consists of digits, dashes
and spaces only, so the storage sanitizer keeps it intact. -/
theorem valid_account_sanitize_id (a : String)
    (h : (validate_account_number a).1 = true) : sanitizeS a = a := by
  apply sanitizeS_id
  intro c hc
  by_cases hds : c = '-' ∨ c = ' '
  · rcases hds with h1 | h1 <;> subst h1 <;> exact ⟨by decide, by decide, by decide⟩
  · push_neg at hds
    have hcl : c ∈ a.toList.filter fun c => c ≠ '-' && c ≠ ' ' :=
      List.mem_filter.mpr ⟨hc, by simp [hds.1, hds.2]⟩
    have hdig : c.isDigit = true := by
      simp only [validate_account_number, Bool.and_eq_true] at h
      exact List.all_eq_true.mp h.1.1.2 c hcl
    exact digit_not_special c hdig

/-- The formatted number of a valid account is all digits, so the storage
sanitizer keeps it intact as well. -/
theorem formatted_sanitize_id (a : String)
    (h : (validate_account_number a).1 = true) :
    sanitizeS (validate_account_number a).2 = (validate_account_number a).2 := by
  apply sanitizeS_id
  intro c hc
  have hc' : c ∈ a.toList.filter fun c => c ≠ '-' && c ≠ ' ' := by
    simpa [validate_account_number] using hc
  have hdig : c.isDigit = true := by
    simp only [validate_account_number, Bool.and_eq_true] at h
    exact List.all_eq_true.mp h.1.1.2 c hc'
  exact digit_not_special c hdig

/-- A duplicate `(owner_user_id, account_number)` add (user exists,
validation passes, the name is not itself a duplicate) is rejected with
ACCOUNT_EXISTS and the state is unchanged. -/
theorem add_dup_account_rejected (env : Env) (s : BankState)
    (user_id name bank_name account_number : String) (u : User) (ex : Beneficiary)
    (hu : get_user_by_id s user_id = some u)
    (hval : validate_beneficiary_account account_number bank_name = true)
    (hnm : find_beneficiary_by_name s user_id name = none)
    (hacct : find_beneficiary_by_account s user_id account_number = some ex) :
    add_beneficiary env s user_id name bank_name account_number
      = (create_error_response "Account number already exists for a beneficiary"
          (some "ACCOUNT_EXISTS") env.ts, s) := by
  simp only [add_beneficiary, hu, hval, hnm, hacct, Bool.not_true]
  rw [if_neg (by simp)]

/-- A duplicate `(owner_user_id, name)` add (case-insensitive; user exists,
validation passes) is rejected with BENEFICIARY_EXISTS and the state is
unchanged. -/
theorem add_dup_name_rejected (env : Env) (s : BankState)
    (user_id name bank_name account_number : String) (u : User) (ex : Beneficiary)
    (hu : get_user_by_id s user_id = some u)
    (hval : validate_beneficiary_account account_number bank_name = true)
    (hnm : find_beneficiary_by_name s user_id name = some ex) :
    add_beneficiary env s user_id name bank_name account_number
      = (create_error_response "Beneficiary already exists"
          (some "BENEFICIARY_EXISTS") env.ts, s) := by
  simp only [add_beneficiary, hu, hval, hnm, Bool.not_true]
  rw [if_neg (by simp)]

/-- C4 counterexample.  `stateBob` satisfies exact `(owner, name)`
uniqueness (also accounts and ids are unique): its beneficiaries are named
`bob` and `BOB`.  Renaming `bob` (row B1) to `BOB` succeeds — the
case-insensitive duplicate check finds row B1 itself first, which is exempt
as the row being updated — and afterwards both rows carry the exact pair
(U1, BOB): exact `(owner_user_id, name)` uniqueness is not preserved by
`update_beneficiary`. -/
theorem C4_counterexample :
    NamesUniqueExact stateBob.beneficiaries
    ∧ AccountsUnique stateBob.beneficiaries
    ∧ IdsUnique stateBob.beneficiaries
    ∧ (update_beneficiary envW stateBob "U1" "B1" ⟨some "BOB", none, none⟩).1.status
        = "success"
    ∧ ¬ NamesUniqueExact
        (update_beneficiary envW stateBob "U1" "B1" ⟨some "BOB", none, none⟩).2.beneficiaries := by
  refine ⟨?_, ?_, ?_, ?_, ?_⟩
  · simp [NamesUniqueExact, stateBob, benBob1, benBob2]
  · simp [AccountsUnique, stateBob, benBob1, benBob2]
  · simp [IdsUnique, stateBob, benBob1, benBob2]
  · decide
  · simp only [NamesUniqueExact]
    decide

/-- `add_beneficiary` preserves case-insensitive name uniqueness and account
uniqueness, provided the new name and owner id are not rewritten by the
storage sanitizer (the account number, having passed validation, never is). -/
theorem add_preserves_uniqueness (env : Env) (s : BankState)
    (user_id name bank_name account_number : String)
    (hci : NamesUniqueCI s.beneficiaries)
    (hacc : AccountsUnique s.beneficiaries)
    (hn : sanitizeS name = name)
    (hid : sanitizeS user_id = user_id) :
    NamesUniqueCI (add_beneficiary env s user_id name bank_name account_number).2.beneficiaries
    ∧ AccountsUnique
        (add_beneficiary env s user_id name bank_name account_number).2.beneficiaries := by
  rcases hu : get_user_by_id s user_id with _ | u
  · simp only [add_beneficiary, hu]
    exact ⟨hci, hacc⟩
  simp only [add_beneficiary, hu]
  rcases hvb : validate_beneficiary_account account_number bank_name
  · rw [if_pos (by decide)]
    exact ⟨hci, hacc⟩
  rw [if_neg (by decide)]
  rcases hnm : find_beneficiary_by_name s user_id name with _ | ex
  swap
  · exact ⟨hci, hacc⟩
  rcases hac : find_beneficiary_by_account s user_id account_number with _ | ex
  swap
  · exact ⟨hci, hacc⟩
  dsimp only []
  have hsacct : sanitizeS account_number = account_number := by
    apply valid_account_sanitize_id
    simp only [validate_beneficiary_account, Bool.and_eq_true] at hvb
    exact hvb.1
  constructor
  · show NamesUniqueCI (s.beneficiaries ++ [_])
    rw [NamesUniqueCI, List.pairwise_append]
    refine ⟨hci, List.pairwise_singleton _ _, ?_⟩
    intro a hma b hmb
    simp only [List.mem_singleton] at hmb
    subst hmb
    dsimp only []
    rw [hid, hn]
    intro hcontra
    have hno := List.find?_eq_none.mp hnm a hma
    simp only [Bool.and_eq_true, beq_iff_eq] at hno
    exact hno ⟨hcontra.1, hcontra.2⟩
  · show AccountsUnique (s.beneficiaries ++ [_])
    rw [AccountsUnique, List.pairwise_append]
    refine ⟨hacc, List.pairwise_singleton _ _, ?_⟩
    intro a hma b hmb
    simp only [List.mem_singleton] at hmb
    subst hmb
    dsimp only []
    rw [hid, hsacct]
    intro hcontra
    have hno := List.find?_eq_none.mp hac a hma
    simp only [Bool.and_eq_true, beq_iff_eq] at hno
    exact hno ⟨hcontra.1, hcontra.2⟩

/-- `update_beneficiary` preserves case-insensitive name uniqueness and
account uniqueness, provided beneficiary ids are unique, a supplied new name
is not rewritten by the storage sanitizer, and a supplied new account number
is already in formatted (dash- and space-free) form. -/
theorem update_preserves_uniqueness (env : Env) (s : BankState)
    (user_id beneficiary_id : String) (upd : BenUpdates)
    (hidq : IdsUnique s.beneficiaries)
    (hci : NamesUniqueCI s.beneficiaries)
    (hacc : AccountsUnique s.beneficiaries)
    (hn : ∀ n, upd.name = some n → sanitizeS n = n)
    (ha : ∀ a, upd.account_number = some a → (validate_account_number a).2 = a) :
    NamesUniqueCI (update_beneficiary env s user_id beneficiary_id upd).2.beneficiaries
    ∧ AccountsUnique (update_beneficiary env s user_id beneficiary_id upd).2.beneficiaries := by
  rcases hgb : get_beneficiary_by_id s user_id beneficiary_id with _ | ben0
  · simp only [update_beneficiary, hgb]
    exact ⟨hci, hacc⟩
  simp only [update_beneficiary, hgb]
  split
  · exact ⟨hci, hacc⟩
  rename_i hnc
  split
  · exact ⟨hci, hacc⟩
  rename_i hinv
  split
  · exact ⟨hci, hacc⟩
  rename_i hacf
  split
  · exact ⟨hci, hacc⟩
  rename_i hnz
  split
  · exact ⟨hci, hacc⟩
  rename_i bens' hrow
  -- decompose the storage update
  simp only [update_row_bens] at hrow
  by_cases hemp : s.beneficiaries.isEmpty = true
  · rw [if_pos hemp] at hrow
    exact absurd hrow (by simp)
  rw [if_neg hemp] at hrow
  by_cases hanyb : (s.beneficiaries.any fun b =>
      b.owner_user_id == user_id && b.beneficiary_id == beneficiary_id) = true
  swap
  · rw [if_neg hanyb] at hrow
    exact absurd hrow (by simp)
  rw [if_pos hanyb] at hrow
  simp only [Option.some.injEq] at hrow
  subst hrow
  -- facts extracted from the passed checks
  have hval : ∀ a0, upd.account_number = some a0 → (validate_account_number a0).1 = true := by
    intro a0 hsome
    rw [hsome] at hinv
    dsimp only [] at hinv
    simpa using hinv
  have hstored : ∀ a0, upd.account_number = some a0 →
      sanitizeS ((validate_account_number a0).2) = a0 := by
    intro a0 hsome
    rw [formatted_sanitize_id a0 (hval a0 hsome), ha a0 hsome]
  have hDname : ∀ n, upd.name = some n → ∀ x ∈ s.beneficiaries,
      x.owner_user_id = user_id → str_lower x.name = str_lower n →
      x.beneficiary_id = beneficiary_id := by
    intro n hsome x hx hxo hxn
    rw [hsome] at hnc
    dsimp only [] at hnc
    rcases hfind : find_beneficiary_by_name s user_id n with _ | ex
    · exfalso
      simp only [find_beneficiary_by_name] at hfind
      have hnone := List.find?_eq_none.mp hfind x hx
      simp only [Bool.and_eq_true, beq_iff_eq] at hnone
      exact hnone ⟨hxo, hxn⟩
    · rw [hfind] at hnc
      dsimp only [] at hnc
      have hexid : ex.beneficiary_id = beneficiary_id := by simpa using hnc
      simp only [find_beneficiary_by_name] at hfind
      have hexmem : ex ∈ s.beneficiaries := List.mem_of_find?_eq_some hfind
      have hexpred := List.find?_some hfind
      simp only [Bool.and_eq_true, beq_iff_eq] at hexpred
      by_cases hxe : x = ex
      · rw [hxe]
        exact hexid
      · exfalso
        have hsym : Symmetric (fun a b : Beneficiary =>
            ¬(a.owner_user_id = b.owner_user_id ∧ str_lower a.name = str_lower b.name)) :=
          fun a b hab hp => hab ⟨hp.1.symm, hp.2.symm⟩
        exact List.Pairwise.forall hsym hci hx hexmem hxe
          ⟨by rw [hxo, hexpred.1], by rw [hxn, hexpred.2]⟩
  have hDacct : ∀ a0, upd.account_number = some a0 → ∀ x ∈ s.beneficiaries,
      x.owner_user_id = user_id → x.account_number = a0 →
      x.beneficiary_id = beneficiary_id := by
    intro a0 hsome x hx hxo hxa
    rw [hsome] at hacf
    dsimp only [] at hacf
    rcases hfind : find_beneficiary_by_account s user_id a0 with _ | ex
    · exfalso
      simp only [find_beneficiary_by_account] at hfind
      have hnone := List.find?_eq_none.mp hfind x hx
      simp only [Bool.and_eq_true, beq_iff_eq] at hnone
      exact hnone ⟨hxo, hxa⟩
    · rw [hfind] at hacf
      dsimp only [] at hacf
      have hexid : ex.beneficiary_id = beneficiary_id := by simpa using hacf
      simp only [find_beneficiary_by_account] at hfind
      have hexmem : ex ∈ s.beneficiaries := List.mem_of_find?_eq_some hfind
      have hexpred := List.find?_some hfind
      simp only [Bool.and_eq_true, beq_iff_eq] at hexpred
      by_cases hxe : x = ex
      · rw [hxe]
        exact hexid
      · exfalso
        have hsym : Symmetric (fun a b : Beneficiary =>
            ¬(a.owner_user_id = b.owner_user_id ∧ a.account_number = b.account_number)) :=
          fun a b hab hp => hab ⟨hp.1.symm, hp.2.symm⟩
        exact List.Pairwise.forall hsym hacc hx hexmem hxe
          ⟨by rw [hxo, hexpred.1], by rw [hxa, hexpred.2]⟩
  constructor
  · refine List.pairwise_map.mpr (List.Pairwise.imp_of_mem ?_ ((hci.and hacc).and hidq))
    intro a b hma hmb hR
    obtain ⟨⟨Rci, Racc⟩, Rid⟩ := hR
    intro hp
    obtain ⟨hown, hnm2⟩ := hp
    by_cases hA : (a.owner_user_id == user_id && a.beneficiary_id == beneficiary_id) = true
      <;> by_cases hB : (b.owner_user_id == user_id && b.beneficiary_id == beneficiary_id) = true
    · simp only [Bool.and_eq_true, beq_iff_eq] at hA hB
      exact Rid ⟨hA.1.trans hB.1.symm, hA.2.trans hB.2.symm⟩
    · rw [if_pos hA, if_neg hB] at hown hnm2
      dsimp only [] at hown hnm2
      rcases hupdn : upd.name with _ | n
      · rw [hupdn] at hnm2
        simp only [Option.map_none', Option.getD_none] at hnm2
        exact Rci ⟨hown, hnm2⟩
      · rw [hupdn] at hnm2
        simp only [Option.map_some', Option.getD_some] at hnm2
        rw [hn n hupdn] at hnm2
        simp only [Bool.and_eq_true, beq_iff_eq] at hA
        have hbown : b.owner_user_id = user_id := by rw [← hown, hA.1]
        have hbid := hDname n hupdn b hmb hbown hnm2.symm
        exact hB (by simp [hbown, hbid])
    · rw [if_neg hA, if_pos hB] at hown hnm2
      dsimp only [] at hown hnm2
      rcases hupdn : upd.name with _ | n
      · rw [hupdn] at hnm2
        simp only [Option.map_none', Option.getD_none] at hnm2
        exact Rci ⟨hown, hnm2⟩
      · rw [hupdn] at hnm2
        simp only [Option.map_some', Option.getD_some] at hnm2
        rw [hn n hupdn] at hnm2
        simp only [Bool.and_eq_true, beq_iff_eq] at hB
        have haown : a.owner_user_id = user_id := by rw [hown, hB.1]
        have haid := hDname n hupdn a hma haown hnm2
        exact hA (by simp [haown, haid])
    · rw [if_neg hA, if_neg hB] at hown hnm2
      exact Rci ⟨hown, hnm2⟩
  · refine List.pairwise_map.mpr (List.Pairwise.imp_of_mem ?_ ((hci.and hacc).and hidq))
    intro a b hma hmb hR
    obtain ⟨⟨Rci, Racc⟩, Rid⟩ := hR
    intro hp
    obtain ⟨hown, hac2⟩ := hp
    by_cases hA : (a.owner_user_id == user_id && a.beneficiary_id == beneficiary_id) = true
      <;> by_cases hB : (b.owner_user_id == user_id && b.beneficiary_id == beneficiary_id) = true
    · simp only [Bool.and_eq_true, beq_iff_eq] at hA hB
      exact Rid ⟨hA.1.trans hB.1.symm, hA.2.trans hB.2.symm⟩
    · rw [if_pos hA, if_neg hB] at hown hac2
      dsimp only [] at hown hac2
      rcases hupda : upd.account_number with _ | a0
      · rw [hupda] at hac2
        simp only [Option.map_none', Option.getD_none] at hac2
        exact Racc ⟨hown, hac2⟩
      · rw [hupda] at hac2
        simp only [Option.map_some', Option.getD_some] at hac2
        rw [hstored a0 hupda] at hac2
        simp only [Bool.and_eq_true, beq_iff_eq] at hA
        have hbown : b.owner_user_id = user_id := by rw [← hown, hA.1]
        have hbid := hDacct a0 hupda b hmb hbown hac2.symm
        exact hB (by simp [hbown, hbid])
    · rw [if_neg hA, if_pos hB] at hown hac2
      dsimp only [] at hown hac2
      rcases hupda : upd.account_number with _ | a0
      · rw [hupda] at hac2
        simp only [Option.map_none', Option.getD_none] at hac2
        exact Racc ⟨hown, hac2⟩
      · rw [hupda] at hac2
        simp only [Option.map_some', Option.getD_some] at hac2
        rw [hstored a0 hupda] at hac2
        simp only [Bool.and_eq_true, beq_iff_eq] at hB
        have haown : a.owner_user_id = user_id := by rw [hown, hB.1]
        have haid := hDacct a0 hupda a hma haown hac2
        exact hA (by simp [haown, haid])
    · rw [if_neg hA, if_neg hB] at hown hac2
      exact Racc ⟨hown, hac2⟩

/-- C4 as amended: a duplicate `(owner, account_number)` add is rejected
with ACCOUNT_EXISTS (a duplicate owner+name with BENEFICIARY_EXISTS) and no
row is appended; `add_beneficiary` and `update_beneficiary` preserve
uniqueness of `(owner_user_id, account_number)` and of
`(owner_user_id, lowercased name)` — for inputs the storage sanitizer keeps
intact and, for updates, tables with unique beneficiary ids.  (Exact-case
name uniqueness is not preserved, see the counterexample.) -/
theorem C4_duplicate_checks_preserve_uniqueness (env : Env) (s : BankState)
    (user_id name bank_name account_number beneficiary_id : String)
    (upd : BenUpdates) (u : User) (ex : Beneficiary) :
    (get_user_by_id s user_id = some u →
      validate_beneficiary_account account_number bank_name = true →
      find_beneficiary_by_name s user_id name = none →
      find_beneficiary_by_account s user_id account_number = some ex →
      add_beneficiary env s user_id name bank_name account_number
        = (create_error_response "Account number already exists for a beneficiary"
            (some "ACCOUNT_EXISTS") env.ts, s))
    ∧ (get_user_by_id s user_id = some u →
        validate_beneficiary_account account_number bank_name = true →
        find_beneficiary_by_name s user_id name = some ex →
        add_beneficiary env s user_id name bank_name account_number
          = (create_error_response "Beneficiary already exists"
              (some "BENEFICIARY_EXISTS") env.ts, s))
    ∧ (NamesUniqueCI s.beneficiaries → AccountsUnique s.beneficiaries →
        sanitizeS name = name → sanitizeS user_id = user_id →
        NamesUniqueCI
            (add_beneficiary env s user_id name bank_name account_number).2.beneficiaries
        ∧ AccountsUnique
            (add_beneficiary env s user_id name bank_name account_number).2.beneficiaries)
    ∧ (IdsUnique s.beneficiaries → NamesUniqueCI s.beneficiaries →
        AccountsUnique s.beneficiaries →
        (∀ n, upd.name = some n → sanitizeS n = n) →
        (∀ a, upd.account_number = some a → (validate_account_number a).2 = a) →
        NamesUniqueCI
            (update_beneficiary env s user_id beneficiary_id upd).2.beneficiaries
        ∧ AccountsUnique
            (update_beneficiary env s user_id beneficiary_id upd).2.beneficiaries) :=
  ⟨fun h1 h2 h3 h4 =>
      add_dup_account_rejected env s user_id name bank_name account_number u ex h1 h2 h3 h4,
    fun h1 h2 h3 =>
      add_dup_name_rejected env s user_id name bank_name account_number u ex h1 h2 h3,
    fun h1 h2 h3 h4 =>
      add_preserves_uniqueness env s user_id name bank_name account_number h1 h2 h3 h4,
    fun h1 h2 h3 h4 h5 =>
      update_preserves_uniqueness env s user_id beneficiary_id upd h1 h2 h3 h4 h5⟩

/-- Witness for C4: a duplicate-account add and a duplicate-name add on the
bob/BOB state are rejected unchanged, and both an add and an update on the
sample state keep the two uniqueness invariants. -/
theorem C4_duplicate_checks_preserve_uniqueness_witness :
    add_beneficiary envW stateBob "U1" "Ali" "HBL" "1234567890"
        = (create_error_response "Account number already exists for a beneficiary"
            (some "ACCOUNT_EXISTS") envW.ts, stateBob)
    ∧ add_beneficiary envW stateBob "U1" "Bob" "HBL" "9876543210"
        = (create_error_response "Beneficiary already exists"
            (some "BENEFICIARY_EXISTS") envW.ts, stateBob)
    ∧ (NamesUniqueCI (add_beneficiary envW stateW "U1" "Ali" "HBL" "9876543210").2.beneficiaries
       ∧ AccountsUnique
          (add_beneficiary envW stateW "U1" "Ali" "HBL" "9876543210").2.beneficiaries)
    ∧ (NamesUniqueCI
          (update_beneficiary envW stateW "U1" "B1"
            ⟨some "Zeddy", none, some "9876543210"⟩).2.beneficiaries
       ∧ AccountsUnique
          (update_beneficiary envW stateW "U1" "B1"
            ⟨some "Zeddy", none, some "9876543210"⟩).2.beneficiaries) := by
  refine ⟨?_, ?_, ?_, ?_⟩
  · exact (C4_duplicate_checks_preserve_uniqueness envW stateBob "U1" "Ali" "HBL"
      "1234567890" "B1" ⟨none, none, none⟩ userU1 benBob1).1
      (by decide) (by decide) (by decide) (by decide)
  · exact (C4_duplicate_checks_preserve_uniqueness envW stateBob "U1" "Bob" "HBL"
      "9876543210" "B1" ⟨none, none, none⟩ userU1 benBob1).2.1
      (by decide) (by decide) (by decide)
  · exact (C4_duplicate_checks_preserve_uniqueness envW stateW "U1" "Ali" "HBL"
      "9876543210" "B1" ⟨none, none, none⟩ userU1 benB1).2.2.1
      (by decide) (by decide) (by decide) (by decide)
  · exact (C4_duplicate_checks_preserve_uniqueness envW stateW "U1" "Ali" "HBL"
      "9876543210" "B1" ⟨some "Zeddy", none, some "9876543210"⟩ userU1 benB1).2.2.2
      (by decide) (by decide) (by decide)
      (fun n h => by
        have h2 : "Zeddy" = n := Option.some.inj h
        rw [← h2]
        decide)
      (fun a h => by
        have h2 : "9876543210" = a := Option.some.inj h
        rw [← h2]
        decide)

end Plutus
